import Mathlib

/-!  Verification of the yuzu `InputCommon::InputEngine` device state table,
listener registry and mapping-detection protocol, shallowly embedded from
`src/input_common/input_engine.cpp`.  The C++ `std::unordered_map` /
`std::map` containers are modelled as association lists with unique keys,
`f32` values as `Rat`, and the `std::function` callbacks by their presence
flags together with an explicit trace of emitted events (listener
notifications and mapping-observer data). -/

/-- Association-list lookup: value of the first entry with the given key
(models `map.find` / a successful `map.at`). -/
def lookupKey {α β : Type} [DecidableEq α] (k : α) : List (α × β) → Option β
  | [] => none
  | p :: t => if p.1 = k then some p.2 else lookupKey k t

/-- Replace the value of the first entry with the given key, or append a new
entry (models `map.insert_or_assign`). -/
def insertOrAssign {α β : Type} [DecidableEq α] (k : α) (v : β) :
    List (α × β) → List (α × β)
  | [] => [(k, v)]
  | p :: t => if p.1 = k then (k, v) :: t else p :: insertOrAssign k v t

/-- Insert a new entry only when the key is absent (models `map.try_emplace`). -/
def tryEmplace {α β : Type} [DecidableEq α] (k : α) (v : β)
    (l : List (α × β)) : List (α × β) :=
  match lookupKey k l with
  | some _ => l
  | none => l ++ [(k, v)]

/-- Remove the first entry with the given key (models `map.erase` of a found
iterator). -/
def eraseKey {α β : Type} [DecidableEq α] (k : α) : List (α × β) → List (α × β)
  | [] => []
  | p :: t => if p.1 = k then t else p :: eraseKey k t

/-- Modelled from the spec: device identity (`PadIdentifier`), an immutable
tuple of device GUID, logical pad index and physical port index with
structural equality; the defining header is not among the provided sources. -/
structure PadIdentifier where
  guid : Nat
  pad : Nat
  port : Nat
deriving DecidableEq

/-- Modelled from the spec: the input kinds (`EngineInputType`) used to tag
listener subscriptions and mapping events — button, hat button, analog axis,
motion and battery; the defining header is not among the provided sources. -/
inductive EngineInputType where
  | Button
  | HatButton
  | Analog
  | Motion
  | Battery
deriving DecidableEq

/-- Modelled from the spec: the enumerated battery charge level
(`BatteryLevel`); `GetBattery` falls back to `Charging` for an unknown
device.  The defining header is not among the provided sources. -/
inductive BatteryLevel where
  | None
  | Empty
  | Critical
  | Low
  | Medium
  | Full
  | Charging
deriving DecidableEq

/-- Modelled from the spec: a 6-axis motion sample (`BasicMotion`, three
accelerometer and three gyroscope components), value-initialised to all
zeroes; the defining header is not among the provided sources.  `f32`
components are modelled as `Rat`. -/
structure BasicMotion where
  gyro_x : Rat := 0
  gyro_y : Rat := 0
  gyro_z : Rat := 0
  accel_x : Rat := 0
  accel_y : Rat := 0
  accel_z : Rat := 0
deriving DecidableEq

/-- Modelled from the spec: the per-device state record (`ControllerData`)
holding the button, hat-button, axis and motion maps and the battery level;
the defining header is not among the provided sources.  Map fields are
association lists keyed by the input index. -/
structure ControllerData where
  buttons : List (Int × Bool) := []
  hat_buttons : List (Int × Nat) := []
  axes : List (Int × Rat) := []
  motions : List (Int × BasicMotion) := []
  battery : BatteryLevel := BatteryLevel.None
deriving DecidableEq

/-- Modelled from the spec: a listener subscription (`InputIdentifier`):
device identity, input kind, input index and an optional zero-argument
notifier, modelled by its presence flag `has_on_change`; the defining header
is not among the provided sources. -/
structure InputIdentifier where
  identifier : PadIdentifier
  type : EngineInputType
  index : Int
  has_on_change : Bool
deriving DecidableEq

/-- Modelled from the spec: the structured mapping event (`MappingData`)
delivered to the mapping observer: engine name, device identity, input kind,
input index and the kind-specific payload; unmentioned fields are
value-initialised.  The hat direction name is modelled by the direction bit
itself (see `hatButtonName`). -/
structure MappingData where
  engine : String := ""
  pad : PadIdentifier := { guid := 0, pad := 0, port := 0 }
  type : EngineInputType := EngineInputType.Button
  index : Int := 0
  button_value : Bool := false
  hat_name : Nat := 0
  axis_value : Rat := 0
  motion_value : BasicMotion := {}
deriving DecidableEq

/-- An observable effect of a mutator call: the invocation of a
subscription's changed notifier (identified by its registry key) or the
delivery of a `MappingData` event to the mapping observer. -/
inductive EngineEvent where
  | notify (key : Int)
  | mapping (data : MappingData)
deriving DecidableEq

/-- The complete engine state: `controller_list`, `callback_list`,
`last_callback_key`, the `configuring` flag, the engine name, and the
presence of the mapping observer's `on_data` callback
(`has_mapping_callback`). -/
structure InputEngineState where
  input_engine : String := ""
  controller_list : List (PadIdentifier × ControllerData) := []
  callback_list : List (Int × InputIdentifier) := []
  last_callback_key : Int := 0
  configuring : Bool := false
  has_mapping_callback : Bool := false
deriving DecidableEq

/-- InputEngine::PreSetController: `controller_list.try_emplace(identifier)` —
register a default controller record when the identity is absent. -/
def preSetController (s : InputEngineState) (id : PadIdentifier) : InputEngineState :=
  { s with controller_list := tryEmplace id {} s.controller_list }

/-- InputEngine::PreSetButton: `controller_list.at(identifier)` (hard fault,
modelled as `none`, when the identity is unregistered) then
`buttons.try_emplace(button, false)`. -/
def preSetButton (s : InputEngineState) (id : PadIdentifier) (button : Int) :
    Option InputEngineState :=
  match lookupKey id s.controller_list with
  | none => none
  | some cd =>
    let cd2 := { cd with buttons := tryEmplace button false cd.buttons }
    some { s with controller_list := insertOrAssign id cd2 s.controller_list }

/-- InputEngine::PreSetHatButton: `hat_buttons.try_emplace(button, u8 0)` on
the controller record fetched with `at`. -/
def preSetHatButton (s : InputEngineState) (id : PadIdentifier) (button : Int) :
    Option InputEngineState :=
  match lookupKey id s.controller_list with
  | none => none
  | some cd =>
    let cd2 := { cd with hat_buttons := tryEmplace button 0 cd.hat_buttons }
    some { s with controller_list := insertOrAssign id cd2 s.controller_list }

/-- InputEngine::PreSetAxis: `axes.try_emplace(axis, 0.0f)` on the controller
record fetched with `at`. -/
def preSetAxis (s : InputEngineState) (id : PadIdentifier) (axis : Int) :
    Option InputEngineState :=
  match lookupKey id s.controller_list with
  | none => none
  | some cd =>
    let cd2 := { cd with axes := tryEmplace axis 0 cd.axes }
    some { s with controller_list := insertOrAssign id cd2 s.controller_list }

/-- InputEngine::PreSetMotion: `motions.try_emplace(motion)` on the controller
record fetched with `at`. -/
def preSetMotion (s : InputEngineState) (id : PadIdentifier) (motion : Int) :
    Option InputEngineState :=
  match lookupKey id s.controller_list with
  | none => none
  | some cd =>
    let cd2 := { cd with motions := tryEmplace motion {} cd.motions }
    some { s with controller_list := insertOrAssign id cd2 s.controller_list }

/-- InputEngine::GetButton: logged error and `false` when the identity or the
button index is unknown, else the stored boolean. -/
def getButton (s : InputEngineState) (id : PadIdentifier) (button : Int) : Bool :=
  match lookupKey id s.controller_list with
  | none => false
  | some cd =>
    match lookupKey button cd.buttons with
    | none => false
    | some v => v

/-- InputEngine::GetHatButton: logged error and `false` when the identity or
the hat index is unknown, else whether the stored mask has the queried
direction bit set. -/
def getHatButton (s : InputEngineState) (id : PadIdentifier) (button : Int)
    (direction : Nat) : Bool :=
  match lookupKey id s.controller_list with
  | none => false
  | some cd =>
    match lookupKey button cd.hat_buttons with
    | none => false
    | some m => decide ((m &&& direction) ≠ 0)

/-- InputEngine::GetAxis: logged error and `0.0f` when the identity or the
axis index is unknown, else the stored magnitude. -/
def getAxis (s : InputEngineState) (id : PadIdentifier) (axis : Int) : Rat :=
  match lookupKey id s.controller_list with
  | none => 0
  | some cd =>
    match lookupKey axis cd.axes with
    | none => 0
    | some v => v

/-- InputEngine::GetBattery: logged error and `BatteryLevel::Charging` when
the identity is unknown, else the stored level. -/
def getBattery (s : InputEngineState) (id : PadIdentifier) : BatteryLevel :=
  match lookupKey id s.controller_list with
  | none => BatteryLevel.Charging
  | some cd => cd.battery

/-- InputEngine::GetMotion: a default-constructed `BasicMotion` when the
identity is unknown, but `controller.motions.at(motion)` — an unchecked
lookup whose `std::out_of_range` hard fault is modelled as `none` — for the
motion index. -/
def getMotion (s : InputEngineState) (id : PadIdentifier) (motion : Int) :
    Option BasicMotion :=
  match lookupKey id s.controller_list with
  | none => some {}
  | some cd => lookupKey motion cd.motions

/-- InputEngine::IsInputIdentifierEqual: sequential comparison of kind, index
and device identity. -/
def isInputIdentifierEqual (ii : InputIdentifier) (id : PadIdentifier)
    (t : EngineInputType) (index : Int) : Bool :=
  if ii.type ≠ t then false
  else if ii.index ≠ index then false
  else if ii.identifier ≠ id then false
  else true

/-- The listener scan shared by every `TriggerOn*Change`: one `notify` event
per subscription whose triple matches and whose `on_change` notifier is
present, in registry order. -/
def notifiesFor (s : InputEngineState) (id : PadIdentifier)
    (t : EngineInputType) (index : Int) : List EngineEvent :=
  s.callback_list.filterMap fun p =>
    if isInputIdentifierEqual p.2 id t index && p.2.has_on_change then
      some (EngineEvent.notify p.1)
    else none

/-- The successive values of `index` in the hat-button detection loop
`for (index = 1; index < 0xff; index <<= 1)`: the eight direction bits. -/
def hatDirections : List Nat := [1, 2, 4, 8, 16, 32, 64, 128]

/-- Modelled from the spec: the virtual `GetHatButtonName` (not among the
provided sources) names the direction of one hat bit; the name is modelled
by the direction bit value itself, which the spec only requires to identify
"that specific direction". -/
def hatButtonName (direction : Nat) : Nat := direction

/-- InputEngine::TriggerOnButtonChange: listener scan, then — only in
configuring mode with a mapping observer — lazy `PreSetButton` (which can
hard-fault on an unregistered identity) and a mapping event when the incoming
value differs from the stored baseline. -/
def triggerOnButtonChange (s : InputEngineState) (id : PadIdentifier)
    (button : Int) (value : Bool) : Option (InputEngineState × List EngineEvent) :=
  if !s.configuring || !s.has_mapping_callback then
    some (s, notifiesFor s id EngineInputType.Button button)
  else
    match preSetButton s id button with
    | none => none
    | some s1 =>
      if value = getButton s1 id button then
        some (s1, notifiesFor s id EngineInputType.Button button)
      else
        some (s1, notifiesFor s id EngineInputType.Button button ++ [EngineEvent.mapping
          { engine := s1.input_engine, pad := id, type := EngineInputType.Button,
            index := button, button_value := value }])

/-- InputEngine::TriggerOnHatButtonChange: listener scan, then — only in
configuring mode with a mapping observer — one mapping event per direction
bit at which the incoming mask differs from the stored mask. -/
def triggerOnHatButtonChange (s : InputEngineState) (id : PadIdentifier)
    (button : Int) (value : Nat) : InputEngineState × List EngineEvent :=
  if !s.configuring || !s.has_mapping_callback then
    (s, notifiesFor s id EngineInputType.HatButton button)
  else
    (s, notifiesFor s id EngineInputType.HatButton button ++ hatDirections.filterMap fun i =>
      if decide ((value &&& i) ≠ 0) = getHatButton s id button i then none
      else some (EngineEvent.mapping
        { engine := s.input_engine, pad := id, type := EngineInputType.HatButton,
          index := button, hat_name := hatButtonName i }))

/-- InputEngine::TriggerOnAxisChange: listener scan, then — only in
configuring mode with a mapping observer — a mapping event unless the
absolute difference from the stored value is below `0.5f`. -/
def triggerOnAxisChange (s : InputEngineState) (id : PadIdentifier)
    (axis : Int) (value : Rat) : InputEngineState × List EngineEvent :=
  if !s.configuring || !s.has_mapping_callback then
    (s, notifiesFor s id EngineInputType.Analog axis)
  else if |value - getAxis s id axis| < 1/2 then
    (s, notifiesFor s id EngineInputType.Analog axis)
  else
    (s, notifiesFor s id EngineInputType.Analog axis ++ [EngineEvent.mapping
      { engine := s.input_engine, pad := id, type := EngineInputType.Analog,
        index := axis, axis_value := value }])

/-- InputEngine::TriggerOnBatteryChange: listener scan only (battery changes
are never forwarded to the mapping observer). -/
def triggerOnBatteryChange (s : InputEngineState) (id : PadIdentifier)
    (_value : BatteryLevel) : InputEngineState × List EngineEvent :=
  (s, notifiesFor s id EngineInputType.Battery 0)

/-- InputEngine::TriggerOnMotionChange: listener scan, then — only in
configuring mode with a mapping observer — a mapping event when some
accelerometer magnitude exceeds `1.5f` or some gyroscope magnitude exceeds
`0.6f` (the latter constant modelled as `3/5`). -/
def triggerOnMotionChange (s : InputEngineState) (id : PadIdentifier)
    (motion : Int) (value : BasicMotion) : InputEngineState × List EngineEvent :=
  if !s.configuring || !s.has_mapping_callback then
    (s, notifiesFor s id EngineInputType.Motion motion)
  else
    if !((decide (|value.accel_x| > (3/2 : Rat)) || decide (|value.accel_y| > (3/2 : Rat)) ||
        decide (|value.accel_z| > (3/2 : Rat))) ||
      (decide (|value.gyro_x| > (3/5 : Rat)) || decide (|value.gyro_y| > (3/5 : Rat)) ||
        decide (|value.gyro_z| > (3/5 : Rat)))) then
      (s, notifiesFor s id EngineInputType.Motion motion)
    else
      (s, notifiesFor s id EngineInputType.Motion motion ++ [EngineEvent.mapping
        { engine := s.input_engine, pad := id, type := EngineInputType.Motion,
          index := motion, motion_value := value }])

/-- InputEngine::SetButton: `controller_list.at(identifier)` (hard fault,
modelled as `none`, when the identity is unregistered), the write gated on
`!configuring`, then `TriggerOnButtonChange`. -/
def setButton (s : InputEngineState) (id : PadIdentifier) (button : Int)
    (value : Bool) : Option (InputEngineState × List EngineEvent) :=
  match lookupKey id s.controller_list with
  | none => none
  | some cd =>
    let s1 :=
      if s.configuring then s
      else
        let cd2 := { cd with buttons := insertOrAssign button value cd.buttons }
        { s with controller_list := insertOrAssign id cd2 s.controller_list }
    triggerOnButtonChange s1 id button value

/-- InputEngine::SetHatButton: gated write of the 8-bit mask, then
`TriggerOnHatButtonChange`. -/
def setHatButton (s : InputEngineState) (id : PadIdentifier) (button : Int)
    (value : Nat) : Option (InputEngineState × List EngineEvent) :=
  match lookupKey id s.controller_list with
  | none => none
  | some cd =>
    let s1 :=
      if s.configuring then s
      else
        let cd2 := { cd with hat_buttons := insertOrAssign button value cd.hat_buttons }
        { s with controller_list := insertOrAssign id cd2 s.controller_list }
    some (triggerOnHatButtonChange s1 id button value)

/-- InputEngine::SetAxis: gated write of the magnitude, then
`TriggerOnAxisChange`. -/
def setAxis (s : InputEngineState) (id : PadIdentifier) (axis : Int)
    (value : Rat) : Option (InputEngineState × List EngineEvent) :=
  match lookupKey id s.controller_list with
  | none => none
  | some cd =>
    let s1 :=
      if s.configuring then s
      else
        let cd2 := { cd with axes := insertOrAssign axis value cd.axes }
        { s with controller_list := insertOrAssign id cd2 s.controller_list }
    some (triggerOnAxisChange s1 id axis value)

/-- InputEngine::SetBattery: gated write of the battery level, then
`TriggerOnBatteryChange`. -/
def setBattery (s : InputEngineState) (id : PadIdentifier)
    (value : BatteryLevel) : Option (InputEngineState × List EngineEvent) :=
  match lookupKey id s.controller_list with
  | none => none
  | some cd =>
    let s1 :=
      if s.configuring then s
      else
        let cd2 := { cd with battery := value }
        { s with controller_list := insertOrAssign id cd2 s.controller_list }
    some (triggerOnBatteryChange s1 id value)

/-- InputEngine::SetMotion: gated write of the motion sample, then
`TriggerOnMotionChange`. -/
def setMotion (s : InputEngineState) (id : PadIdentifier) (motion : Int)
    (value : BasicMotion) : Option (InputEngineState × List EngineEvent) :=
  match lookupKey id s.controller_list with
  | none => none
  | some cd =>
    let s1 :=
      if s.configuring then s
      else
        let cd2 := { cd with motions := insertOrAssign motion value cd.motions }
        { s with controller_list := insertOrAssign id cd2 s.controller_list }
    some (triggerOnMotionChange s1 id motion value)

/-- Inner loop of InputEngine::ResetButtonState over one controller's button
map: `SetButton(identifier, index, false)` for every listed button. -/
def resetButtonsInner (id : PadIdentifier) :
    List (Int × Bool) → InputEngineState → List EngineEvent →
    Option (InputEngineState × List EngineEvent)
  | [], s, evs => some (s, evs)
  | p :: t, s, evs =>
    match setButton s id p.1 false with
    | none => none
    | some r => resetButtonsInner id t r.1 (evs ++ r.2)

/-- Inner loop of InputEngine::ResetButtonState over one controller's
hat-button map: `SetHatButton(identifier, index, 0)` for every listed hat. -/
def resetHatsInner (id : PadIdentifier) :
    List (Int × Nat) → InputEngineState → List EngineEvent →
    Option (InputEngineState × List EngineEvent)
  | [], s, evs => some (s, evs)
  | p :: t, s, evs =>
    match setHatButton s id p.1 0 with
    | none => none
    | some r => resetHatsInner id t r.1 (evs ++ r.2)

/-- Outer loop of InputEngine::ResetButtonState over the controller list
snapshot. -/
def resetButtonStateAux :
    List (PadIdentifier × ControllerData) → InputEngineState → List EngineEvent →
    Option (InputEngineState × List EngineEvent)
  | [], s, evs => some (s, evs)
  | c :: t, s, evs =>
    match resetButtonsInner c.1 c.2.buttons s evs with
    | none => none
    | some r1 =>
      match resetHatsInner c.1 c.2.hat_buttons r1.1 r1.2 with
      | none => none
      | some r2 => resetButtonStateAux t r2.1 r2.2

/-- InputEngine::ResetButtonState: for every known device, `SetButton(false)`
on every known button index and `SetHatButton(0)` on every known hat index. -/
def resetButtonState (s : InputEngineState) :
    Option (InputEngineState × List EngineEvent) :=
  resetButtonStateAux s.controller_list s []

/-- Inner loop of InputEngine::ResetAnalogState over one controller's axis
map: `SetAxis(identifier, index, 0.0)` for every listed axis. -/
def resetAxesInner (id : PadIdentifier) :
    List (Int × Rat) → InputEngineState → List EngineEvent →
    Option (InputEngineState × List EngineEvent)
  | [], s, evs => some (s, evs)
  | p :: t, s, evs =>
    match setAxis s id p.1 0 with
    | none => none
    | some r => resetAxesInner id t r.1 (evs ++ r.2)

/-- Outer loop of InputEngine::ResetAnalogState over the controller list
snapshot. -/
def resetAnalogStateAux :
    List (PadIdentifier × ControllerData) → InputEngineState → List EngineEvent →
    Option (InputEngineState × List EngineEvent)
  | [], s, evs => some (s, evs)
  | c :: t, s, evs =>
    match resetAxesInner c.1 c.2.axes s evs with
    | none => none
    | some r => resetAnalogStateAux t r.1 r.2

/-- InputEngine::ResetAnalogState: `SetAxis(identifier, index, 0.0)` for every
known device and axis index. -/
def resetAnalogState (s : InputEngineState) :
    Option (InputEngineState × List EngineEvent) :=
  resetAnalogStateAux s.controller_list s []

/-- InputEngine::BeginConfiguration: `configuring = true`. -/
def beginConfiguration (s : InputEngineState) : InputEngineState :=
  { s with configuring := true }

/-- InputEngine::EndConfiguration: `configuring = false`. -/
def endConfiguration (s : InputEngineState) : InputEngineState :=
  { s with configuring := false }

/-- InputEngine::SetCallback: store the subscription under
`last_callback_key`, return that key and post-increment the counter. -/
def setCallback (s : InputEngineState) (ii : InputIdentifier) :
    InputEngineState × Int :=
  ({ s with callback_list := insertOrAssign s.last_callback_key ii s.callback_list,
            last_callback_key := s.last_callback_key + 1 },
   s.last_callback_key)

/-- InputEngine::SetMappingCallback: replace the single mapping observer,
modelled by the presence of its `on_data` callback. -/
def setMappingCallback (s : InputEngineState) (has_on_data : Bool) :
    InputEngineState :=
  { s with has_mapping_callback := has_on_data }

/-- InputEngine::DeleteCallback: erase the found subscription; a logged error
and no state change when the key is unknown. -/
def deleteCallback (s : InputEngineState) (key : Int) : InputEngineState :=
  match lookupKey key s.callback_list with
  | none => s
  | some _ => { s with callback_list := eraseKey key s.callback_list }

/-- The stored button value for a device and index: `none` when either is
unregistered. -/
def storedButton (s : InputEngineState) (id : PadIdentifier) (button : Int) :
    Option Bool :=
  match lookupKey id s.controller_list with
  | none => none
  | some cd => lookupKey button cd.buttons

/-- The stored hat-button mask for a device and index. -/
def storedHatButton (s : InputEngineState) (id : PadIdentifier) (button : Int) :
    Option Nat :=
  match lookupKey id s.controller_list with
  | none => none
  | some cd => lookupKey button cd.hat_buttons

/-- The stored axis magnitude for a device and index. -/
def storedAxis (s : InputEngineState) (id : PadIdentifier) (axis : Int) :
    Option Rat :=
  match lookupKey id s.controller_list with
  | none => none
  | some cd => lookupKey axis cd.axes

/-- The stored motion sample for a device and index. -/
def storedMotion (s : InputEngineState) (id : PadIdentifier) (motion : Int) :
    Option BasicMotion :=
  match lookupKey id s.controller_list with
  | none => none
  | some cd => lookupKey motion cd.motions

/-- The stored battery level for a device. -/
def storedBattery (s : InputEngineState) (id : PadIdentifier) :
    Option BatteryLevel :=
  match lookupKey id s.controller_list with
  | none => none
  | some cd => some cd.battery

/-- The mapping-observer events inside an event trace. -/
def mappingEvents (evs : List EngineEvent) : List MappingData :=
  evs.filterMap fun e =>
    match e with
    | EngineEvent.mapping d => some d
    | EngineEvent.notify _ => none

/-- An operation on the listener registry: a `SetCallback` subscription or a
`DeleteCallback` removal. -/
inductive RegOp where
  | sub (ii : InputIdentifier)
  | del (key : Int)

/-- Run a sequence of registry operations, collecting the keys returned by
the `SetCallback` calls in order. -/
def runRegOps : List RegOp → InputEngineState → InputEngineState × List Int
  | [], s => (s, [])
  | RegOp.sub ii :: t, s =>
    let r := setCallback s ii
    let r2 := runRegOps t r.1
    (r2.1, r.2 :: r2.2)
  | RegOp.del k :: t, s => runRegOps t (deleteCallback s k)

/-- Concrete device identity used by the witness evaluations. -/
def pid0 : PadIdentifier := { guid := 1, pad := 2, port := 3 }

/-- A second, distinct device identity. -/
def pidB : PadIdentifier := { guid := 7, pad := 0, port := 1 }

/-- Concrete controller record used by the witness evaluations. -/
def egCd : ControllerData :=
  { buttons := [(0, true), (5, false)],
    hat_buttons := [(1, 3), (0, 0)],
    axes := [(2, 1), (3, 0)],
    motions := [(4, {})],
    battery := BatteryLevel.Full }

/-- Concrete engine in normal mode with one registered controller. -/
def egNormal : InputEngineState :=
  { input_engine := "t", controller_list := [(pid0, egCd)] }

/-- The same engine in configuring mode with a mapping observer. -/
def egCfg : InputEngineState :=
  { egNormal with configuring := true, has_mapping_callback := true }

/-- A concrete subscription for (pid0, Button, 5) with a notifier. -/
def egSub : InputIdentifier :=
  { identifier := pid0, type := EngineInputType.Button, index := 5, has_on_change := true }

/-- The normal-mode engine with one listener subscription under key 7. -/
def egListen : InputEngineState :=
  { egNormal with callback_list := [(7, egSub)] }

/-- A configuring-mode engine whose only state is a hat mask with one bit
set, so that a reset emits a mapping-detection event. -/
def egC9Cfg : InputEngineState :=
  { input_engine := "t",
    controller_list := [(pid0, { hat_buttons := [(0, 1)] })],
    configuring := true,
    has_mapping_callback := true }

/-- An engine with no registered controller. -/
def egEmpty : InputEngineState := { input_engine := "t" }

lemma lookupKey_insertOrAssign_self {α β : Type} [DecidableEq α] (k : α) (v : β)
    (l : List (α × β)) : lookupKey k (insertOrAssign k v l) = some v := by
  induction l with
  | nil => simp [insertOrAssign, lookupKey]
  | cons p t ih =>
    by_cases h : p.1 = k
    · simp [insertOrAssign, lookupKey, h]
    · simp [insertOrAssign, lookupKey, h, ih]

lemma lookupKey_insertOrAssign_ne {α β : Type} [DecidableEq α] (k k2 : α) (v : β)
    (l : List (α × β)) (h : k2 ≠ k) :
    lookupKey k2 (insertOrAssign k v l) = lookupKey k2 l := by
  induction l with
  | nil => simp [insertOrAssign, lookupKey, Ne.symm h]
  | cons p t ih =>
    by_cases hp : p.1 = k
    · simp [insertOrAssign, lookupKey, hp, Ne.symm h]
    · by_cases hp2 : p.1 = k2
      · simp [insertOrAssign, lookupKey, hp, hp2, Ne.symm h, h]
      · simp [insertOrAssign, lookupKey, hp, hp2, ih]

lemma insertOrAssign_self_of_lookup {α β : Type} [DecidableEq α] (k : α) (v : β)
    (l : List (α × β)) (h : lookupKey k l = some v) : insertOrAssign k v l = l := by
  induction l with
  | nil => simp [lookupKey] at h
  | cons p t ih =>
    by_cases hp : p.1 = k
    · simp [lookupKey, hp] at h
      have hkv : (k, v) = p := by rw [← hp, ← h]
      simp [insertOrAssign, hp, hkv]
    · simp [lookupKey, hp] at h
      simp [insertOrAssign, hp, ih h]

lemma tryEmplace_of_lookup_some {α β : Type} [DecidableEq α] (k : α) (v w : β)
    (l : List (α × β)) (h : lookupKey k l = some w) : tryEmplace k v l = l := by
  simp [tryEmplace, h]

lemma lookupKey_append {α β : Type} [DecidableEq α] (k : α) (l1 l2 : List (α × β)) :
    lookupKey k (l1 ++ l2) =
      match lookupKey k l1 with
      | some v => some v
      | none => lookupKey k l2 := by
  induction l1 with
  | nil => simp [lookupKey]
  | cons p t ih =>
    by_cases hp : p.1 = k
    · simp [lookupKey, hp]
    · simp [lookupKey, hp, ih]

lemma lookupKey_tryEmplace_none {α β : Type} [DecidableEq α] (k : α) (v : β)
    (l : List (α × β)) (h : lookupKey k l = none) :
    lookupKey k (tryEmplace k v l) = some v := by
  simp [tryEmplace, h, lookupKey_append, lookupKey]

lemma lookupKey_tryEmplace_ne {α β : Type} [DecidableEq α] (k k2 : α) (v : β)
    (l : List (α × β)) (h : k2 ≠ k) :
    lookupKey k2 (tryEmplace k v l) = lookupKey k2 l := by
  cases hl : lookupKey k l with
  | some w => simp [tryEmplace, hl]
  | none =>
    simp only [tryEmplace, hl, lookupKey_append]
    cases h2 : lookupKey k2 l with
    | some w => simp
    | none => simp [lookupKey, Ne.symm h]

lemma lookupKey_isSome_insertOrAssign {α β : Type} [DecidableEq α] (k k2 : α)
    (v : β) (cd : β) (l : List (α × β)) (h : lookupKey k l = some cd) :
    (lookupKey k2 (insertOrAssign k v l)).isSome = (lookupKey k2 l).isSome := by
  by_cases hk : k2 = k
  · subst hk
    simp [lookupKey_insertOrAssign_self, h]
  · simp [lookupKey_insertOrAssign_ne _ _ _ _ hk]

lemma lookupKey_eq_none_of_not_mem {α β : Type} [DecidableEq α] (k : α)
    (l : List (α × β)) (h : k ∉ l.map Prod.fst) : lookupKey k l = none := by
  induction l with
  | nil => simp [lookupKey]
  | cons p t ih =>
    simp only [List.map_cons, List.mem_cons, not_or] at h
    have hp : p.1 ≠ k := fun hh => h.1 hh.symm
    simp [lookupKey, hp, ih h.2]

lemma lookupKey_eraseKey_ne {α β : Type} [DecidableEq α] (k k2 : α)
    (l : List (α × β)) (h : k2 ≠ k) :
    lookupKey k2 (eraseKey k l) = lookupKey k2 l := by
  induction l with
  | nil => simp [eraseKey]
  | cons p t ih =>
    by_cases hp : p.1 = k
    · have hp2 : p.1 ≠ k2 := by
        rw [hp]
        exact Ne.symm h
      simp [eraseKey, hp, lookupKey, hp2, Ne.symm h]
    · by_cases hp2 : p.1 = k2
      · simp [eraseKey, hp, lookupKey, hp2, h]
      · simp [eraseKey, hp, lookupKey, hp2, ih]

lemma lookupKey_eraseKey_self {α β : Type} [DecidableEq α] (k : α)
    (l : List (α × β)) (hnd : (l.map Prod.fst).Nodup) :
    lookupKey k (eraseKey k l) = none := by
  induction l with
  | nil => simp [eraseKey, lookupKey]
  | cons p t ih =>
    simp only [List.map_cons, List.nodup_cons] at hnd
    by_cases hp : p.1 = k
    · have hk : k ∉ t.map Prod.fst := by
        rw [← hp]
        exact hnd.1
      simp [eraseKey, hp, lookupKey_eq_none_of_not_mem _ _ hk]
    · simp [eraseKey, hp, lookupKey, hp, ih hnd.2]

lemma lookupKey_isSome_of_mem {α β : Type} [DecidableEq α] (k : α) (v : β)
    (l : List (α × β)) (h : (k, v) ∈ l) : (lookupKey k l).isSome = true := by
  induction l with
  | nil => simp at h
  | cons p t ih =>
    rcases List.mem_cons.mp h with h1 | h1
    · simp [lookupKey, ← h1]
    · by_cases hp : p.1 = k
      · simp [lookupKey, hp]
      · simp [lookupKey, hp, ih h1]

lemma lookupKey_eq_of_mem_nodup {α β : Type} [DecidableEq α] (k : α) (v : β)
    (l : List (α × β)) (hnd : (l.map Prod.fst).Nodup) (h : (k, v) ∈ l) :
    lookupKey k l = some v := by
  induction l with
  | nil => simp at h
  | cons p t ih =>
    simp only [List.map_cons, List.nodup_cons] at hnd
    rcases List.mem_cons.mp h with h1 | h1
    · simp [lookupKey, ← h1]
    · have hp : p.1 ≠ k := by
        intro hp
        refine hnd.1 ?_
        rw [hp]
        exact List.mem_map.mpr ⟨(k, v), h1, rfl⟩
      simp [lookupKey, hp, ih hnd.2 h1]

lemma lookupKey_mem_of_eq_some {α β : Type} [DecidableEq α] (k : α) (v : β)
    (l : List (α × β)) (h : lookupKey k l = some v) : (k, v) ∈ l := by
  induction l with
  | nil => simp [lookupKey] at h
  | cons p t ih =>
    by_cases hp : p.1 = k
    · simp [lookupKey, hp] at h
      have : (k, v) = p := by rw [← hp, ← h]
      simp [this]
    · simp [lookupKey, hp] at h
      exact List.mem_cons_of_mem _ (ih h)

lemma notifiesFor_congr (s s2 : InputEngineState) (id : PadIdentifier)
    (t : EngineInputType) (index : Int) (h : s2.callback_list = s.callback_list) :
    notifiesFor s2 id t index = notifiesFor s id t index := by
  simp [notifiesFor, h]

lemma mappingEvents_append (l1 l2 : List EngineEvent) :
    mappingEvents (l1 ++ l2) = mappingEvents l1 ++ mappingEvents l2 := by
  simp [mappingEvents]

lemma mappingEvents_notifiesFor (s : InputEngineState) (id : PadIdentifier)
    (t : EngineInputType) (index : Int) :
    mappingEvents (notifiesFor s id t index) = [] := by
  simp only [mappingEvents, notifiesFor, List.filterMap_filterMap]
  induction s.callback_list with
  | nil => simp
  | cons p l ih =>
    simp only [List.filterMap_cons]
    by_cases h : (isInputIdentifierEqual p.2 id t index && p.2.has_on_change) = true
    · simp [h, ih]
    · simp [h, ih]

lemma isInputIdentifierEqual_iff (ii : InputIdentifier) (id : PadIdentifier)
    (t : EngineInputType) (index : Int) :
    isInputIdentifierEqual ii id t index = true ↔
      (ii.identifier = id ∧ ii.type = t ∧ ii.index = index) := by
  by_cases h1 : ii.type = t
  · by_cases h2 : ii.index = index
    · by_cases h3 : ii.identifier = id
      · simp [isInputIdentifierEqual, h1, h2, h3]
      · simp [isInputIdentifierEqual, h1, h2, h3]
    · simp [isInputIdentifierEqual, h1, h2]
  · simp [isInputIdentifierEqual, h1]

lemma notify_mem_notifiesFor_intro (s : InputEngineState) (id : PadIdentifier)
    (t : EngineInputType) (index : Int) (k : Int) (ii : InputIdentifier)
    (hmem : (k, ii) ∈ s.callback_list) (hon : ii.has_on_change = true)
    (heq : isInputIdentifierEqual ii id t index = true) :
    EngineEvent.notify k ∈ notifiesFor s id t index := by
  refine List.mem_filterMap.mpr ⟨(k, ii), hmem, ?_⟩
  simp [heq, hon]

lemma notify_mem_notifiesFor_iff (s : InputEngineState) (id : PadIdentifier)
    (t : EngineInputType) (index : Int) (k : Int) (ii : InputIdentifier)
    (hnd : (s.callback_list.map Prod.fst).Nodup)
    (hmem : (k, ii) ∈ s.callback_list) (hon : ii.has_on_change = true) :
    (EngineEvent.notify k ∈ notifiesFor s id t index ↔
      isInputIdentifierEqual ii id t index = true) := by
  constructor
  · intro hin
    rcases List.mem_filterMap.mp hin with ⟨p, hp, hf⟩
    by_cases hc : (isInputIdentifierEqual p.2 id t index && p.2.has_on_change) = true
    · simp [hc] at hf
      have hk : p.1 = k := hf
      have hpp : p = (k, p.2) := by
        rw [← hk]
      have hii : p.2 = ii := by
        have h1 : lookupKey k s.callback_list = some p.2 :=
          lookupKey_eq_of_mem_nodup _ _ _ hnd (hpp ▸ hp)
        have h2 : lookupKey k s.callback_list = some ii :=
          lookupKey_eq_of_mem_nodup _ _ _ hnd hmem
        rw [h1] at h2
        exact Option.some.inj h2
      rw [← hii]
      exact (Bool.and_eq_true_iff.mp hc).1
    · simp [hc] at hf
  · intro heq
    exact notify_mem_notifiesFor_intro s id t index k ii hmem hon heq

lemma notify_mem_append_mapping (k : Int) (n m : List EngineEvent)
    (hm : ∀ e ∈ m, ∃ d, e = EngineEvent.mapping d) :
    (EngineEvent.notify k ∈ n ++ m ↔ EngineEvent.notify k ∈ n) := by
  simp only [List.mem_append]
  constructor
  · intro h
    rcases h with h | h
    · exact h
    · rcases hm _ h with ⟨d, hd⟩
      exact absurd hd (by intro hdd; cases hdd)
  · intro h
    exact Or.inl h

lemma filterMap_ite_ne {α β : Type} (p q : α → Bool) (f : α → β) (l : List α) :
    (l.filterMap fun i => if p i = q i then none else some (f i)) =
      (l.filter fun i => p i != q i).map f := by
  induction l with
  | nil => simp
  | cons a t ih =>
    by_cases h : p a = q a
    · simp [List.filterMap_cons, List.filter_cons, h, ih]
    · simp [List.filterMap_cons, List.filter_cons, h, ih, bne]

lemma mappingEvents_map_mapping {α : Type} (g : α → MappingData) (l : List α) :
    mappingEvents (l.map fun i => EngineEvent.mapping (g i)) = l.map g := by
  induction l with
  | nil => simp [mappingEvents]
  | cons a t ih =>
    simp [mappingEvents] at *
    simp [ih]

lemma getButton_eq_of_stored (s : InputEngineState) (id : PadIdentifier)
    (b : Int) (v : Bool) (h : storedButton s id b = some v) :
    getButton s id b = v := by
  unfold storedButton at h
  unfold getButton
  cases hc : lookupKey id s.controller_list with
  | none =>
    rw [hc] at h
    exact Option.noConfusion h
  | some cd =>
    rw [hc] at h
    have h2 : lookupKey b cd.buttons = some v := h
    show (match lookupKey b cd.buttons with | none => false | some v => v) = v
    rw [h2]

lemma getHatButton_eq_of_stored (s : InputEngineState) (id : PadIdentifier)
    (b : Int) (m : Nat) (d : Nat) (h : storedHatButton s id b = some m) :
    getHatButton s id b d = decide ((m &&& d) ≠ 0) := by
  unfold storedHatButton at h
  unfold getHatButton
  cases hc : lookupKey id s.controller_list with
  | none =>
    rw [hc] at h
    exact Option.noConfusion h
  | some cd =>
    rw [hc] at h
    have h2 : lookupKey b cd.hat_buttons = some m := h
    show (match lookupKey b cd.hat_buttons with
      | none => false
      | some m => decide ((m &&& d) ≠ 0)) = decide ((m &&& d) ≠ 0)
    rw [h2]

lemma getAxis_eq_of_stored (s : InputEngineState) (id : PadIdentifier)
    (a : Int) (v : Rat) (h : storedAxis s id a = some v) :
    getAxis s id a = v := by
  unfold storedAxis at h
  unfold getAxis
  cases hc : lookupKey id s.controller_list with
  | none =>
    rw [hc] at h
    exact Option.noConfusion h
  | some cd =>
    rw [hc] at h
    have h2 : lookupKey a cd.axes = some v := h
    show (match lookupKey a cd.axes with | none => 0 | some v => v) = v
    rw [h2]

lemma preSetButton_noop (s : InputEngineState) (id : PadIdentifier) (b : Int)
    (cd : ControllerData) (v : Bool) (hc : lookupKey id s.controller_list = some cd)
    (hb : lookupKey b cd.buttons = some v) : preSetButton s id b = some s := by
  unfold preSetButton
  rw [hc]
  show some { s with controller_list := insertOrAssign id { cd with buttons := tryEmplace b false cd.buttons } s.controller_list } = some s
  rw [tryEmplace_of_lookup_some b false v cd.buttons hb]
  show some { s with controller_list := insertOrAssign id cd s.controller_list } = some s
  rw [insertOrAssign_self_of_lookup id cd s.controller_list hc]

lemma preSetHatButton_noop (s : InputEngineState) (id : PadIdentifier) (b : Int)
    (cd : ControllerData) (v : Nat) (hc : lookupKey id s.controller_list = some cd)
    (hb : lookupKey b cd.hat_buttons = some v) : preSetHatButton s id b = some s := by
  unfold preSetHatButton
  rw [hc]
  show some { s with controller_list := insertOrAssign id { cd with hat_buttons := tryEmplace b 0 cd.hat_buttons } s.controller_list } = some s
  rw [tryEmplace_of_lookup_some b 0 v cd.hat_buttons hb]
  show some { s with controller_list := insertOrAssign id cd s.controller_list } = some s
  rw [insertOrAssign_self_of_lookup id cd s.controller_list hc]

lemma preSetAxis_noop (s : InputEngineState) (id : PadIdentifier) (b : Int)
    (cd : ControllerData) (v : Rat) (hc : lookupKey id s.controller_list = some cd)
    (hb : lookupKey b cd.axes = some v) : preSetAxis s id b = some s := by
  unfold preSetAxis
  rw [hc]
  show some { s with controller_list := insertOrAssign id { cd with axes := tryEmplace b 0 cd.axes } s.controller_list } = some s
  rw [tryEmplace_of_lookup_some b 0 v cd.axes hb]
  show some { s with controller_list := insertOrAssign id cd s.controller_list } = some s
  rw [insertOrAssign_self_of_lookup id cd s.controller_list hc]

lemma preSetMotion_noop (s : InputEngineState) (id : PadIdentifier) (b : Int)
    (cd : ControllerData) (v : BasicMotion) (hc : lookupKey id s.controller_list = some cd)
    (hb : lookupKey b cd.motions = some v) : preSetMotion s id b = some s := by
  unfold preSetMotion
  rw [hc]
  show some { s with controller_list := insertOrAssign id { cd with motions := tryEmplace b ({} : BasicMotion) cd.motions } s.controller_list } = some s
  rw [tryEmplace_of_lookup_some b ({} : BasicMotion) v cd.motions hb]
  show some { s with controller_list := insertOrAssign id cd s.controller_list } = some s
  rw [insertOrAssign_self_of_lookup id cd s.controller_list hc]

lemma preSetButton_register (s : InputEngineState) (id : PadIdentifier) (b : Int)
    (cd : ControllerData) (hc : lookupKey id s.controller_list = some cd)
    (hb : lookupKey b cd.buttons = none) :
    ∃ s2, preSetButton s id b = some s2 ∧
      storedButton s2 id b = some false ∧
      (∀ b2, b2 ≠ b → storedButton s2 id b2 = storedButton s id b2) ∧
      preSetButton s2 id b = some s2 := by
  have ht : tryEmplace b false cd.buttons = cd.buttons ++ [(b, false)] := by
    simp [tryEmplace, hb]
  refine ⟨{ s with controller_list := insertOrAssign id { cd with buttons := cd.buttons ++ [(b, false)] } s.controller_list }, ?_, ?_, ?_, ?_⟩
  · unfold preSetButton
    rw [hc]
    show some { s with controller_list := insertOrAssign id { cd with buttons := tryEmplace b false cd.buttons } s.controller_list } = _
    rw [ht]
  · unfold storedButton
    rw [lookupKey_insertOrAssign_self]
    show lookupKey b (cd.buttons ++ [(b, false)]) = some false
    rw [lookupKey_append, hb]
    simp [lookupKey]
  · intro b2 hb2
    have hs : storedButton s id b2 = lookupKey b2 cd.buttons := by
      unfold storedButton
      rw [hc]
    rw [hs]
    unfold storedButton
    rw [lookupKey_insertOrAssign_self]
    show lookupKey b2 (cd.buttons ++ [(b, false)]) = lookupKey b2 cd.buttons
    rw [lookupKey_append]
    cases hx : lookupKey b2 cd.buttons with
    | some w => rfl
    | none => simp [lookupKey, Ne.symm hb2]
  · refine preSetButton_noop _ _ _ _ false (lookupKey_insertOrAssign_self _ _ _) ?_
    show lookupKey b (cd.buttons ++ [(b, false)]) = some false
    rw [lookupKey_append, hb]
    simp [lookupKey]

lemma preSetHatButton_register (s : InputEngineState) (id : PadIdentifier) (b : Int)
    (cd : ControllerData) (hc : lookupKey id s.controller_list = some cd)
    (hb : lookupKey b cd.hat_buttons = none) :
    ∃ s2, preSetHatButton s id b = some s2 ∧
      storedHatButton s2 id b = some 0 ∧
      (∀ b2, b2 ≠ b → storedHatButton s2 id b2 = storedHatButton s id b2) ∧
      preSetHatButton s2 id b = some s2 := by
  have ht : tryEmplace b 0 cd.hat_buttons = cd.hat_buttons ++ [(b, 0)] := by
    simp [tryEmplace, hb]
  refine ⟨{ s with controller_list := insertOrAssign id { cd with hat_buttons := cd.hat_buttons ++ [(b, 0)] } s.controller_list }, ?_, ?_, ?_, ?_⟩
  · unfold preSetHatButton
    rw [hc]
    show some { s with controller_list := insertOrAssign id { cd with hat_buttons := tryEmplace b 0 cd.hat_buttons } s.controller_list } = _
    rw [ht]
  · unfold storedHatButton
    rw [lookupKey_insertOrAssign_self]
    show lookupKey b (cd.hat_buttons ++ [(b, 0)]) = some 0
    rw [lookupKey_append, hb]
    simp [lookupKey]
  · intro b2 hb2
    have hs : storedHatButton s id b2 = lookupKey b2 cd.hat_buttons := by
      unfold storedHatButton
      rw [hc]
    rw [hs]
    unfold storedHatButton
    rw [lookupKey_insertOrAssign_self]
    show lookupKey b2 (cd.hat_buttons ++ [(b, 0)]) = lookupKey b2 cd.hat_buttons
    rw [lookupKey_append]
    cases hx : lookupKey b2 cd.hat_buttons with
    | some w => rfl
    | none => simp [lookupKey, Ne.symm hb2]
  · refine preSetHatButton_noop _ _ _ _ 0 (lookupKey_insertOrAssign_self _ _ _) ?_
    show lookupKey b (cd.hat_buttons ++ [(b, 0)]) = some 0
    rw [lookupKey_append, hb]
    simp [lookupKey]

lemma preSetAxis_register (s : InputEngineState) (id : PadIdentifier) (b : Int)
    (cd : ControllerData) (hc : lookupKey id s.controller_list = some cd)
    (hb : lookupKey b cd.axes = none) :
    ∃ s2, preSetAxis s id b = some s2 ∧
      storedAxis s2 id b = some 0 ∧
      (∀ b2, b2 ≠ b → storedAxis s2 id b2 = storedAxis s id b2) ∧
      preSetAxis s2 id b = some s2 := by
  have ht : tryEmplace b 0 cd.axes = cd.axes ++ [(b, 0)] := by
    simp [tryEmplace, hb]
  refine ⟨{ s with controller_list := insertOrAssign id { cd with axes := cd.axes ++ [(b, 0)] } s.controller_list }, ?_, ?_, ?_, ?_⟩
  · unfold preSetAxis
    rw [hc]
    show some { s with controller_list := insertOrAssign id { cd with axes := tryEmplace b 0 cd.axes } s.controller_list } = _
    rw [ht]
  · unfold storedAxis
    rw [lookupKey_insertOrAssign_self]
    show lookupKey b (cd.axes ++ [(b, 0)]) = some 0
    rw [lookupKey_append, hb]
    simp [lookupKey]
  · intro b2 hb2
    have hs : storedAxis s id b2 = lookupKey b2 cd.axes := by
      unfold storedAxis
      rw [hc]
    rw [hs]
    unfold storedAxis
    rw [lookupKey_insertOrAssign_self]
    show lookupKey b2 (cd.axes ++ [(b, 0)]) = lookupKey b2 cd.axes
    rw [lookupKey_append]
    cases hx : lookupKey b2 cd.axes with
    | some w => rfl
    | none => simp [lookupKey, Ne.symm hb2]
  · refine preSetAxis_noop _ _ _ _ 0 (lookupKey_insertOrAssign_self _ _ _) ?_
    show lookupKey b (cd.axes ++ [(b, 0)]) = some 0
    rw [lookupKey_append, hb]
    simp [lookupKey]

lemma preSetMotion_register (s : InputEngineState) (id : PadIdentifier) (b : Int)
    (cd : ControllerData) (hc : lookupKey id s.controller_list = some cd)
    (hb : lookupKey b cd.motions = none) :
    ∃ s2, preSetMotion s id b = some s2 ∧
      storedMotion s2 id b = some ({} : BasicMotion) ∧
      (∀ b2, b2 ≠ b → storedMotion s2 id b2 = storedMotion s id b2) ∧
      preSetMotion s2 id b = some s2 := by
  have ht : tryEmplace b ({} : BasicMotion) cd.motions = cd.motions ++ [(b, ({} : BasicMotion))] := by
    simp [tryEmplace, hb]
  refine ⟨{ s with controller_list := insertOrAssign id { cd with motions := cd.motions ++ [(b, ({} : BasicMotion))] } s.controller_list }, ?_, ?_, ?_, ?_⟩
  · unfold preSetMotion
    rw [hc]
    show some { s with controller_list := insertOrAssign id { cd with motions := tryEmplace b ({} : BasicMotion) cd.motions } s.controller_list } = _
    rw [ht]
  · unfold storedMotion
    rw [lookupKey_insertOrAssign_self]
    show lookupKey b (cd.motions ++ [(b, ({} : BasicMotion))]) = some ({} : BasicMotion)
    rw [lookupKey_append, hb]
    simp [lookupKey]
  · intro b2 hb2
    have hs : storedMotion s id b2 = lookupKey b2 cd.motions := by
      unfold storedMotion
      rw [hc]
    rw [hs]
    unfold storedMotion
    rw [lookupKey_insertOrAssign_self]
    show lookupKey b2 (cd.motions ++ [(b, ({} : BasicMotion))]) = lookupKey b2 cd.motions
    rw [lookupKey_append]
    cases hx : lookupKey b2 cd.motions with
    | some w => rfl
    | none => simp [lookupKey, Ne.symm hb2]
  · refine preSetMotion_noop _ _ _ _ ({} : BasicMotion) (lookupKey_insertOrAssign_self _ _ _) ?_
    show lookupKey b (cd.motions ++ [(b, ({} : BasicMotion))]) = some ({} : BasicMotion)
    rw [lookupKey_append, hb]
    simp [lookupKey]


lemma triggerOnButtonChange_pass (s : InputEngineState) (id : PadIdentifier)
    (b : Int) (v : Bool) (h : (!s.configuring || !s.has_mapping_callback) = true) :
    triggerOnButtonChange s id b v =
      some (s, notifiesFor s id EngineInputType.Button b) := by
  unfold triggerOnButtonChange
  rw [h]
  rfl

lemma triggerOnButtonChange_detect (s s1 : InputEngineState) (id : PadIdentifier)
    (b : Int) (v : Bool) (hcfg : s.configuring = true)
    (hm : s.has_mapping_callback = true) (hpre : preSetButton s id b = some s1) :
    triggerOnButtonChange s id b v =
      (if v = getButton s1 id b then
        some (s1, notifiesFor s id EngineInputType.Button b)
       else
        some (s1, notifiesFor s id EngineInputType.Button b ++ [EngineEvent.mapping { engine := s1.input_engine, pad := id, type := EngineInputType.Button, index := b, button_value := v }])) := by
  unfold triggerOnButtonChange
  rw [hcfg, hm, hpre]
  rfl

lemma triggerOnHatButtonChange_fst (s : InputEngineState) (id : PadIdentifier)
    (b : Int) (v : Nat) : (triggerOnHatButtonChange s id b v).1 = s := by
  unfold triggerOnHatButtonChange
  split
  · rfl
  · rfl

lemma triggerOnAxisChange_fst (s : InputEngineState) (id : PadIdentifier)
    (a : Int) (v : Rat) : (triggerOnAxisChange s id a v).1 = s := by
  unfold triggerOnAxisChange
  split
  · rfl
  · split
    · rfl
    · rfl

lemma triggerOnMotionChange_fst (s : InputEngineState) (id : PadIdentifier)
    (m : Int) (v : BasicMotion) : (triggerOnMotionChange s id m v).1 = s := by
  unfold triggerOnMotionChange
  split
  · rfl
  · split
    · rfl
    · rfl

lemma storedButton_split (s : InputEngineState) (id : PadIdentifier) (b : Int)
    (v0 : Bool) (h0 : storedButton s id b = some v0) :
    ∃ cd, lookupKey id s.controller_list = some cd ∧ lookupKey b cd.buttons = some v0 := by
  unfold storedButton at h0
  cases hc : lookupKey id s.controller_list with
  | none =>
    rw [hc] at h0
    exact Option.noConfusion h0
  | some cd =>
    rw [hc] at h0
    exact ⟨cd, rfl, h0⟩

lemma storedHatButton_split (s : InputEngineState) (id : PadIdentifier) (b : Int)
    (v0 : Nat) (h0 : storedHatButton s id b = some v0) :
    ∃ cd, lookupKey id s.controller_list = some cd ∧ lookupKey b cd.hat_buttons = some v0 := by
  unfold storedHatButton at h0
  cases hc : lookupKey id s.controller_list with
  | none =>
    rw [hc] at h0
    exact Option.noConfusion h0
  | some cd =>
    rw [hc] at h0
    exact ⟨cd, rfl, h0⟩

lemma storedAxis_split (s : InputEngineState) (id : PadIdentifier) (a : Int)
    (v0 : Rat) (h0 : storedAxis s id a = some v0) :
    ∃ cd, lookupKey id s.controller_list = some cd ∧ lookupKey a cd.axes = some v0 := by
  unfold storedAxis at h0
  cases hc : lookupKey id s.controller_list with
  | none =>
    rw [hc] at h0
    exact Option.noConfusion h0
  | some cd =>
    rw [hc] at h0
    exact ⟨cd, rfl, h0⟩

lemma storedMotion_split (s : InputEngineState) (id : PadIdentifier) (m : Int)
    (v0 : BasicMotion) (h0 : storedMotion s id m = some v0) :
    ∃ cd, lookupKey id s.controller_list = some cd ∧ lookupKey m cd.motions = some v0 := by
  unfold storedMotion at h0
  cases hc : lookupKey id s.controller_list with
  | none =>
    rw [hc] at h0
    exact Option.noConfusion h0
  | some cd =>
    rw [hc] at h0
    exact ⟨cd, rfl, h0⟩

lemma bool_eq_false_of_not_true (b : Bool) (h : ¬(b = true)) : b = false := by
  cases hb : b
  · rfl
  · exact absurd hb h

lemma setButton_gating (s : InputEngineState) (id : PadIdentifier) (b : Int)
    (v v0 : Bool) (h0 : storedButton s id b = some v0) :
    ∃ s2 ev, setButton s id b v = some (s2, ev) ∧
      storedButton s2 id b = (if s.configuring then storedButton s id b else some v) := by
  rcases storedButton_split s id b v0 h0 with ⟨cd, hc, hb⟩
  unfold setButton
  rw [hc]
  show ∃ s2 ev, triggerOnButtonChange (if s.configuring = true then s else { s with controller_list := insertOrAssign id { cd with buttons := insertOrAssign b v cd.buttons } s.controller_list }) id b v = some (s2, ev) ∧ storedButton s2 id b = (if s.configuring then storedButton s id b else some v)
  by_cases hcfg : s.configuring = true
  · rw [if_pos hcfg, if_pos hcfg]
    by_cases hm : s.has_mapping_callback = true
    · have hpre : preSetButton s id b = some s := preSetButton_noop s id b cd v0 hc hb
      by_cases hv : v = getButton s id b
      · refine ⟨s, notifiesFor s id EngineInputType.Button b, ?_, rfl⟩
        rw [triggerOnButtonChange_detect s s id b v hcfg hm hpre, if_pos hv]
      · refine ⟨s, notifiesFor s id EngineInputType.Button b ++ [EngineEvent.mapping { engine := s.input_engine, pad := id, type := EngineInputType.Button, index := b, button_value := v }], ?_, rfl⟩
        rw [triggerOnButtonChange_detect s s id b v hcfg hm hpre, if_neg hv]
    · have hm2 : s.has_mapping_callback = false := bool_eq_false_of_not_true _ hm
      refine ⟨s, notifiesFor s id EngineInputType.Button b, ?_, rfl⟩
      exact triggerOnButtonChange_pass s id b v (by rw [hm2]; simp)
  · have hcfg2 : s.configuring = false := bool_eq_false_of_not_true _ hcfg
    rw [if_neg hcfg, if_neg hcfg]
    refine ⟨{ s with controller_list := insertOrAssign id { cd with buttons := insertOrAssign b v cd.buttons } s.controller_list }, notifiesFor s id EngineInputType.Button b, ?_, ?_⟩
    · refine triggerOnButtonChange_pass _ id b v ?_
      show (!s.configuring || !s.has_mapping_callback) = true
      rw [hcfg2]
      rfl
    · unfold storedButton
      rw [lookupKey_insertOrAssign_self]
      show lookupKey b (insertOrAssign b v cd.buttons) = some v
      rw [lookupKey_insertOrAssign_self]

lemma setHatButton_gating (s : InputEngineState) (id : PadIdentifier) (b : Int)
    (v v0 : Nat) (h0 : storedHatButton s id b = some v0) :
    ∃ s2 ev, setHatButton s id b v = some (s2, ev) ∧
      storedHatButton s2 id b = (if s.configuring then storedHatButton s id b else some v) := by
  rcases storedHatButton_split s id b v0 h0 with ⟨cd, hc, hb⟩
  unfold setHatButton
  rw [hc]
  show ∃ s2 ev, some (triggerOnHatButtonChange (if s.configuring = true then s else { s with controller_list := insertOrAssign id { cd with hat_buttons := insertOrAssign b v cd.hat_buttons } s.controller_list }) id b v) = some (s2, ev) ∧ storedHatButton s2 id b = (if s.configuring then storedHatButton s id b else some v)
  by_cases hcfg : s.configuring = true
  · rw [if_pos hcfg, if_pos hcfg]
    refine ⟨(triggerOnHatButtonChange s id b v).1, (triggerOnHatButtonChange s id b v).2, rfl, ?_⟩
    rw [triggerOnHatButtonChange_fst]
  · rw [if_neg hcfg, if_neg hcfg]
    refine ⟨(triggerOnHatButtonChange { s with controller_list := insertOrAssign id { cd with hat_buttons := insertOrAssign b v cd.hat_buttons } s.controller_list } id b v).1, (triggerOnHatButtonChange { s with controller_list := insertOrAssign id { cd with hat_buttons := insertOrAssign b v cd.hat_buttons } s.controller_list } id b v).2, rfl, ?_⟩
    rw [triggerOnHatButtonChange_fst]
    unfold storedHatButton
    rw [lookupKey_insertOrAssign_self]
    show lookupKey b (insertOrAssign b v cd.hat_buttons) = some v
    rw [lookupKey_insertOrAssign_self]

lemma setAxis_gating (s : InputEngineState) (id : PadIdentifier) (a : Int)
    (v v0 : Rat) (h0 : storedAxis s id a = some v0) :
    ∃ s2 ev, setAxis s id a v = some (s2, ev) ∧
      storedAxis s2 id a = (if s.configuring then storedAxis s id a else some v) := by
  rcases storedAxis_split s id a v0 h0 with ⟨cd, hc, hb⟩
  unfold setAxis
  rw [hc]
  show ∃ s2 ev, some (triggerOnAxisChange (if s.configuring = true then s else { s with controller_list := insertOrAssign id { cd with axes := insertOrAssign a v cd.axes } s.controller_list }) id a v) = some (s2, ev) ∧ storedAxis s2 id a = (if s.configuring then storedAxis s id a else some v)
  by_cases hcfg : s.configuring = true
  · rw [if_pos hcfg, if_pos hcfg]
    refine ⟨(triggerOnAxisChange s id a v).1, (triggerOnAxisChange s id a v).2, rfl, ?_⟩
    rw [triggerOnAxisChange_fst]
  · rw [if_neg hcfg, if_neg hcfg]
    refine ⟨(triggerOnAxisChange { s with controller_list := insertOrAssign id { cd with axes := insertOrAssign a v cd.axes } s.controller_list } id a v).1, (triggerOnAxisChange { s with controller_list := insertOrAssign id { cd with axes := insertOrAssign a v cd.axes } s.controller_list } id a v).2, rfl, ?_⟩
    rw [triggerOnAxisChange_fst]
    unfold storedAxis
    rw [lookupKey_insertOrAssign_self]
    show lookupKey a (insertOrAssign a v cd.axes) = some v
    rw [lookupKey_insertOrAssign_self]

lemma setBattery_gating (s : InputEngineState) (id : PadIdentifier)
    (v : BatteryLevel) (cd : ControllerData)
    (hc : lookupKey id s.controller_list = some cd) :
    ∃ s2 ev, setBattery s id v = some (s2, ev) ∧
      storedBattery s2 id = (if s.configuring then storedBattery s id else some v) := by
  unfold setBattery
  rw [hc]
  show ∃ s2 ev, some (triggerOnBatteryChange (if s.configuring = true then s else { s with controller_list := insertOrAssign id { cd with battery := v } s.controller_list }) id v) = some (s2, ev) ∧ storedBattery s2 id = (if s.configuring then storedBattery s id else some v)
  by_cases hcfg : s.configuring = true
  · rw [if_pos hcfg, if_pos hcfg]
    exact ⟨s, notifiesFor s id EngineInputType.Battery 0, rfl, rfl⟩
  · rw [if_neg hcfg, if_neg hcfg]
    refine ⟨{ s with controller_list := insertOrAssign id { cd with battery := v } s.controller_list }, notifiesFor s id EngineInputType.Battery 0, rfl, ?_⟩
    unfold storedBattery
    rw [lookupKey_insertOrAssign_self]

lemma setMotion_gating (s : InputEngineState) (id : PadIdentifier) (m : Int)
    (v v0 : BasicMotion) (h0 : storedMotion s id m = some v0) :
    ∃ s2 ev, setMotion s id m v = some (s2, ev) ∧
      storedMotion s2 id m = (if s.configuring then storedMotion s id m else some v) := by
  rcases storedMotion_split s id m v0 h0 with ⟨cd, hc, hb⟩
  unfold setMotion
  rw [hc]
  show ∃ s2 ev, some (triggerOnMotionChange (if s.configuring = true then s else { s with controller_list := insertOrAssign id { cd with motions := insertOrAssign m v cd.motions } s.controller_list }) id m v) = some (s2, ev) ∧ storedMotion s2 id m = (if s.configuring then storedMotion s id m else some v)
  by_cases hcfg : s.configuring = true
  · rw [if_pos hcfg, if_pos hcfg]
    refine ⟨(triggerOnMotionChange s id m v).1, (triggerOnMotionChange s id m v).2, rfl, ?_⟩
    rw [triggerOnMotionChange_fst]
  · rw [if_neg hcfg, if_neg hcfg]
    refine ⟨(triggerOnMotionChange { s with controller_list := insertOrAssign id { cd with motions := insertOrAssign m v cd.motions } s.controller_list } id m v).1, (triggerOnMotionChange { s with controller_list := insertOrAssign id { cd with motions := insertOrAssign m v cd.motions } s.controller_list } id m v).2, rfl, ?_⟩
    rw [triggerOnMotionChange_fst]
    unfold storedMotion
    rw [lookupKey_insertOrAssign_self]
    show lookupKey m (insertOrAssign m v cd.motions) = some v
    rw [lookupKey_insertOrAssign_self]

lemma deleteCallback_last (s : InputEngineState) (k : Int) :
    (deleteCallback s k).last_callback_key = s.last_callback_key := by
  unfold deleteCallback
  cases hl : lookupKey k s.callback_list with
  | none => rfl
  | some ii => rfl

lemma deleteCallback_controller (s : InputEngineState) (k : Int) :
    (deleteCallback s k).controller_list = s.controller_list := by
  unfold deleteCallback
  cases hl : lookupKey k s.callback_list with
  | none => rfl
  | some ii => rfl

lemma runRegOps_key_ge (ops : List RegOp) :
    ∀ s k, k ∈ (runRegOps ops s).2 → s.last_callback_key ≤ k := by
  induction ops with
  | nil =>
    intro s k h
    exact absurd h (List.not_mem_nil k)
  | cons op t ih =>
    intro s k h
    cases op with
    | sub ii =>
      have h2 : k ∈ (setCallback s ii).2 :: (runRegOps t (setCallback s ii).1).2 := h
      rcases List.mem_cons.mp h2 with h1 | h1
      · have hk : k = s.last_callback_key := h1
        rw [hk]
      · have hge := ih (setCallback s ii).1 k h1
        have hlast : (setCallback s ii).1.last_callback_key = s.last_callback_key + 1 := rfl
        rw [hlast] at hge
        omega
    | del k2 =>
      have h2 : k ∈ (runRegOps t (deleteCallback s k2)).2 := h
      have hge := ih (deleteCallback s k2) k h2
      rw [deleteCallback_last] at hge
      exact hge

lemma triggerOnButtonChange_shape (s : InputEngineState) (id : PadIdentifier)
    (b : Int) (v : Bool) (s2 : InputEngineState) (ev : List EngineEvent)
    (h : triggerOnButtonChange s id b v = some (s2, ev)) :
    ∃ m, ev = notifiesFor s id EngineInputType.Button b ++ m ∧
      ∀ e ∈ m, ∃ d, e = EngineEvent.mapping d := by
  unfold triggerOnButtonChange at h
  by_cases hp : (!s.configuring || !s.has_mapping_callback) = true
  · rw [if_pos hp] at h
    have h2 : (s, notifiesFor s id EngineInputType.Button b) = (s2, ev) := Option.some.inj h
    have hev : ev = notifiesFor s id EngineInputType.Button b := (congrArg Prod.snd h2).symm
    refine ⟨[], ?_, ?_⟩
    · rw [hev, List.append_nil]
    · intro e he
      exact absurd he (List.not_mem_nil e)
  · rw [if_neg hp] at h
    cases hpre : preSetButton s id b with
    | none =>
      rw [hpre] at h
      exact Option.noConfusion h
    | some s1 =>
      rw [hpre] at h
      have h3 : (if v = getButton s1 id b then some (s1, notifiesFor s id EngineInputType.Button b) else some (s1, notifiesFor s id EngineInputType.Button b ++ [EngineEvent.mapping { engine := s1.input_engine, pad := id, type := EngineInputType.Button, index := b, button_value := v }])) = some (s2, ev) := h
      by_cases hv : v = getButton s1 id b
      · rw [if_pos hv] at h3
        have h2 : (s1, notifiesFor s id EngineInputType.Button b) = (s2, ev) := Option.some.inj h3
        have hev : ev = notifiesFor s id EngineInputType.Button b := (congrArg Prod.snd h2).symm
        refine ⟨[], ?_, ?_⟩
        · rw [hev, List.append_nil]
        · intro e he
          exact absurd he (List.not_mem_nil e)
      · rw [if_neg hv] at h3
        have h2 := Option.some.inj h3
        have hev := (congrArg Prod.snd h2).symm
        refine ⟨[EngineEvent.mapping { engine := s1.input_engine, pad := id, type := EngineInputType.Button, index := b, button_value := v }], hev, ?_⟩
        intro e he
        rcases List.mem_singleton.mp he with rfl
        exact ⟨_, rfl⟩

lemma triggerOnHatButtonChange_shape (s : InputEngineState) (id : PadIdentifier)
    (b : Int) (v : Nat) :
    ∃ m, (triggerOnHatButtonChange s id b v).2 =
        notifiesFor s id EngineInputType.HatButton b ++ m ∧
      ∀ e ∈ m, ∃ d, e = EngineEvent.mapping d := by
  unfold triggerOnHatButtonChange
  by_cases hp : (!s.configuring || !s.has_mapping_callback) = true
  · rw [if_pos hp]
    refine ⟨[], (List.append_nil _).symm, ?_⟩
    intro e he
    exact absurd he (List.not_mem_nil e)
  · rw [if_neg hp]
    refine ⟨_, rfl, ?_⟩
    intro e he
    rcases List.mem_filterMap.mp he with ⟨i, hi, hf⟩
    by_cases hcond : decide ((v &&& i) ≠ 0) = getHatButton s id b i
    · rw [if_pos hcond] at hf
      exact Option.noConfusion hf
    · rw [if_neg hcond] at hf
      exact ⟨_, (Option.some.inj hf).symm⟩

lemma triggerOnAxisChange_shape (s : InputEngineState) (id : PadIdentifier)
    (a : Int) (v : Rat) :
    ∃ m, (triggerOnAxisChange s id a v).2 =
        notifiesFor s id EngineInputType.Analog a ++ m ∧
      ∀ e ∈ m, ∃ d, e = EngineEvent.mapping d := by
  unfold triggerOnAxisChange
  by_cases hp : (!s.configuring || !s.has_mapping_callback) = true
  · rw [if_pos hp]
    refine ⟨[], (List.append_nil _).symm, ?_⟩
    intro e he
    exact absurd he (List.not_mem_nil e)
  · rw [if_neg hp]
    by_cases h2 : |v - getAxis s id a| < 1/2
    · rw [if_pos h2]
      refine ⟨[], (List.append_nil _).symm, ?_⟩
      intro e he
      exact absurd he (List.not_mem_nil e)
    · rw [if_neg h2]
      refine ⟨_, rfl, ?_⟩
      intro e he
      rcases List.mem_singleton.mp he with rfl
      exact ⟨_, rfl⟩

lemma triggerOnBatteryChange_shape (s : InputEngineState) (id : PadIdentifier)
    (v : BatteryLevel) :
    (triggerOnBatteryChange s id v).2 = notifiesFor s id EngineInputType.Battery 0 := rfl

lemma triggerOnMotionChange_shape (s : InputEngineState) (id : PadIdentifier)
    (m : Int) (v : BasicMotion) :
    ∃ ml, (triggerOnMotionChange s id m v).2 =
        notifiesFor s id EngineInputType.Motion m ++ ml ∧
      ∀ e ∈ ml, ∃ d, e = EngineEvent.mapping d := by
  unfold triggerOnMotionChange
  by_cases hp : (!s.configuring || !s.has_mapping_callback) = true
  · rw [if_pos hp]
    refine ⟨[], (List.append_nil _).symm, ?_⟩
    intro e he
    exact absurd he (List.not_mem_nil e)
  · rw [if_neg hp]
    by_cases h2 : (!((decide (|v.accel_x| > (3/2 : Rat)) || decide (|v.accel_y| > (3/2 : Rat)) ||
        decide (|v.accel_z| > (3/2 : Rat))) ||
      (decide (|v.gyro_x| > (3/5 : Rat)) || decide (|v.gyro_y| > (3/5 : Rat)) ||
        decide (|v.gyro_z| > (3/5 : Rat))))) = true
    · rw [if_pos h2]
      refine ⟨[], (List.append_nil _).symm, ?_⟩
      intro e he
      exact absurd he (List.not_mem_nil e)
    · rw [if_neg h2]
      refine ⟨_, rfl, ?_⟩
      intro e he
      rcases List.mem_singleton.mp he with rfl
      exact ⟨_, rfl⟩
lemma setHatButton_some_shape (s : InputEngineState) (id : PadIdentifier)
    (b : Int) (v : Nat) (s2 : InputEngineState) (ev : List EngineEvent)
    (h : setHatButton s id b v = some (s2, ev)) :
    ∃ m, ev = notifiesFor s id EngineInputType.HatButton b ++ m ∧
      ∀ e ∈ m, ∃ d, e = EngineEvent.mapping d := by
  unfold setHatButton at h
  cases hc : lookupKey id s.controller_list with
  | none =>
    rw [hc] at h
    exact Option.noConfusion h
  | some cd =>
    rw [hc] at h
    have h1 : some (triggerOnHatButtonChange (if s.configuring = true then s else { s with controller_list := insertOrAssign id { cd with hat_buttons := insertOrAssign b v cd.hat_buttons } s.controller_list }) id b v) = some (s2, ev) := h
    have h2 := Option.some.inj h1
    have hev : ev = (triggerOnHatButtonChange (if s.configuring = true then s else { s with controller_list := insertOrAssign id { cd with hat_buttons := insertOrAssign b v cd.hat_buttons } s.controller_list }) id b v).2 := (congrArg Prod.snd h2).symm
    rcases triggerOnHatButtonChange_shape (if s.configuring = true then s else { s with controller_list := insertOrAssign id { cd with hat_buttons := insertOrAssign b v cd.hat_buttons } s.controller_list }) id b v with ⟨m, hm1, hm2⟩
    refine ⟨m, ?_, hm2⟩
    rw [hev, hm1]
    have hcb : notifiesFor (if s.configuring = true then s else { s with controller_list := insertOrAssign id { cd with hat_buttons := insertOrAssign b v cd.hat_buttons } s.controller_list }) id EngineInputType.HatButton b = notifiesFor s id EngineInputType.HatButton b := by
      apply notifiesFor_congr
      by_cases hcfg : s.configuring = true
      · rw [if_pos hcfg]
      · rw [if_neg hcfg]
    rw [hcb]

lemma setAxis_some_shape (s : InputEngineState) (id : PadIdentifier)
    (b : Int) (v : Rat) (s2 : InputEngineState) (ev : List EngineEvent)
    (h : setAxis s id b v = some (s2, ev)) :
    ∃ m, ev = notifiesFor s id EngineInputType.Analog b ++ m ∧
      ∀ e ∈ m, ∃ d, e = EngineEvent.mapping d := by
  unfold setAxis at h
  cases hc : lookupKey id s.controller_list with
  | none =>
    rw [hc] at h
    exact Option.noConfusion h
  | some cd =>
    rw [hc] at h
    have h1 : some (triggerOnAxisChange (if s.configuring = true then s else { s with controller_list := insertOrAssign id { cd with axes := insertOrAssign b v cd.axes } s.controller_list }) id b v) = some (s2, ev) := h
    have h2 := Option.some.inj h1
    have hev : ev = (triggerOnAxisChange (if s.configuring = true then s else { s with controller_list := insertOrAssign id { cd with axes := insertOrAssign b v cd.axes } s.controller_list }) id b v).2 := (congrArg Prod.snd h2).symm
    rcases triggerOnAxisChange_shape (if s.configuring = true then s else { s with controller_list := insertOrAssign id { cd with axes := insertOrAssign b v cd.axes } s.controller_list }) id b v with ⟨m, hm1, hm2⟩
    refine ⟨m, ?_, hm2⟩
    rw [hev, hm1]
    have hcb : notifiesFor (if s.configuring = true then s else { s with controller_list := insertOrAssign id { cd with axes := insertOrAssign b v cd.axes } s.controller_list }) id EngineInputType.Analog b = notifiesFor s id EngineInputType.Analog b := by
      apply notifiesFor_congr
      by_cases hcfg : s.configuring = true
      · rw [if_pos hcfg]
      · rw [if_neg hcfg]
    rw [hcb]

lemma setMotion_some_shape (s : InputEngineState) (id : PadIdentifier)
    (b : Int) (v : BasicMotion) (s2 : InputEngineState) (ev : List EngineEvent)
    (h : setMotion s id b v = some (s2, ev)) :
    ∃ m, ev = notifiesFor s id EngineInputType.Motion b ++ m ∧
      ∀ e ∈ m, ∃ d, e = EngineEvent.mapping d := by
  unfold setMotion at h
  cases hc : lookupKey id s.controller_list with
  | none =>
    rw [hc] at h
    exact Option.noConfusion h
  | some cd =>
    rw [hc] at h
    have h1 : some (triggerOnMotionChange (if s.configuring = true then s else { s with controller_list := insertOrAssign id { cd with motions := insertOrAssign b v cd.motions } s.controller_list }) id b v) = some (s2, ev) := h
    have h2 := Option.some.inj h1
    have hev : ev = (triggerOnMotionChange (if s.configuring = true then s else { s with controller_list := insertOrAssign id { cd with motions := insertOrAssign b v cd.motions } s.controller_list }) id b v).2 := (congrArg Prod.snd h2).symm
    rcases triggerOnMotionChange_shape (if s.configuring = true then s else { s with controller_list := insertOrAssign id { cd with motions := insertOrAssign b v cd.motions } s.controller_list }) id b v with ⟨m, hm1, hm2⟩
    refine ⟨m, ?_, hm2⟩
    rw [hev, hm1]
    have hcb : notifiesFor (if s.configuring = true then s else { s with controller_list := insertOrAssign id { cd with motions := insertOrAssign b v cd.motions } s.controller_list }) id EngineInputType.Motion b = notifiesFor s id EngineInputType.Motion b := by
      apply notifiesFor_congr
      by_cases hcfg : s.configuring = true
      · rw [if_pos hcfg]
      · rw [if_neg hcfg]
    rw [hcb]

lemma setButton_some_shape (s : InputEngineState) (id : PadIdentifier)
    (b : Int) (v : Bool) (s2 : InputEngineState) (ev : List EngineEvent)
    (h : setButton s id b v = some (s2, ev)) :
    ∃ m, ev = notifiesFor s id EngineInputType.Button b ++ m ∧
      ∀ e ∈ m, ∃ d, e = EngineEvent.mapping d := by
  unfold setButton at h
  cases hc : lookupKey id s.controller_list with
  | none =>
    rw [hc] at h
    exact Option.noConfusion h
  | some cd =>
    rw [hc] at h
    have h1 : triggerOnButtonChange (if s.configuring = true then s else { s with controller_list := insertOrAssign id { cd with buttons := insertOrAssign b v cd.buttons } s.controller_list }) id b v = some (s2, ev) := h
    rcases triggerOnButtonChange_shape _ id b v s2 ev h1 with ⟨m, hm1, hm2⟩
    refine ⟨m, ?_, hm2⟩
    rw [hm1]
    have hcb : notifiesFor (if s.configuring = true then s else { s with controller_list := insertOrAssign id { cd with buttons := insertOrAssign b v cd.buttons } s.controller_list }) id EngineInputType.Button b = notifiesFor s id EngineInputType.Button b := by
      apply notifiesFor_congr
      by_cases hcfg : s.configuring = true
      · rw [if_pos hcfg]
      · rw [if_neg hcfg]
    rw [hcb]

lemma setBattery_some_shape (s : InputEngineState) (id : PadIdentifier)
    (v : BatteryLevel) (s2 : InputEngineState) (ev : List EngineEvent)
    (h : setBattery s id v = some (s2, ev)) :
    ev = notifiesFor s id EngineInputType.Battery 0 := by
  unfold setBattery at h
  cases hc : lookupKey id s.controller_list with
  | none =>
    rw [hc] at h
    exact Option.noConfusion h
  | some cd =>
    rw [hc] at h
    have h1 : some (triggerOnBatteryChange (if s.configuring = true then s else { s with controller_list := insertOrAssign id { cd with battery := v } s.controller_list }) id v) = some (s2, ev) := h
    have h2 := Option.some.inj h1
    have hev : ev = (triggerOnBatteryChange (if s.configuring = true then s else { s with controller_list := insertOrAssign id { cd with battery := v } s.controller_list }) id v).2 := (congrArg Prod.snd h2).symm
    rw [hev, triggerOnBatteryChange_shape]
    apply notifiesFor_congr
    by_cases hcfg : s.configuring = true
    · rw [if_pos hcfg]
    · rw [if_neg hcfg]
lemma setHatButton_succeeds (s : InputEngineState) (id : PadIdentifier)
    (b : Int) (v : Nat) (cd : ControllerData)
    (hc : lookupKey id s.controller_list = some cd) :
    ∃ r, setHatButton s id b v = some r := by
  unfold setHatButton
  rw [hc]
  exact ⟨_, rfl⟩

lemma setAxis_succeeds (s : InputEngineState) (id : PadIdentifier)
    (b : Int) (v : Rat) (cd : ControllerData)
    (hc : lookupKey id s.controller_list = some cd) :
    ∃ r, setAxis s id b v = some r := by
  unfold setAxis
  rw [hc]
  exact ⟨_, rfl⟩

lemma setMotion_succeeds (s : InputEngineState) (id : PadIdentifier)
    (b : Int) (v : BasicMotion) (cd : ControllerData)
    (hc : lookupKey id s.controller_list = some cd) :
    ∃ r, setMotion s id b v = some r := by
  unfold setMotion
  rw [hc]
  exact ⟨_, rfl⟩

lemma preSetButton_succeeds (s : InputEngineState) (id : PadIdentifier)
    (b : Int) (cd : ControllerData)
    (hc : lookupKey id s.controller_list = some cd) :
    ∃ r, preSetButton s id b = some r := by
  unfold preSetButton
  rw [hc]
  exact ⟨_, rfl⟩

lemma preSetHatButton_succeeds (s : InputEngineState) (id : PadIdentifier)
    (b : Int) (cd : ControllerData)
    (hc : lookupKey id s.controller_list = some cd) :
    ∃ r, preSetHatButton s id b = some r := by
  unfold preSetHatButton
  rw [hc]
  exact ⟨_, rfl⟩

lemma preSetAxis_succeeds (s : InputEngineState) (id : PadIdentifier)
    (b : Int) (cd : ControllerData)
    (hc : lookupKey id s.controller_list = some cd) :
    ∃ r, preSetAxis s id b = some r := by
  unfold preSetAxis
  rw [hc]
  exact ⟨_, rfl⟩

lemma preSetMotion_succeeds (s : InputEngineState) (id : PadIdentifier)
    (b : Int) (cd : ControllerData)
    (hc : lookupKey id s.controller_list = some cd) :
    ∃ r, preSetMotion s id b = some r := by
  unfold preSetMotion
  rw [hc]
  exact ⟨_, rfl⟩

lemma setBattery_succeeds (s : InputEngineState) (id : PadIdentifier)
    (v : BatteryLevel) (cd : ControllerData)
    (hc : lookupKey id s.controller_list = some cd) :
    ∃ r, setBattery s id v = some r := by
  unfold setBattery
  rw [hc]
  exact ⟨_, rfl⟩

lemma setButton_succeeds (s : InputEngineState) (id : PadIdentifier)
    (b : Int) (v : Bool) (cd : ControllerData)
    (hc : lookupKey id s.controller_list = some cd) :
    ∃ r, setButton s id b v = some r := by
  unfold setButton
  rw [hc]
  show ∃ r, triggerOnButtonChange (if s.configuring = true then s else { s with controller_list := insertOrAssign id { cd with buttons := insertOrAssign b v cd.buttons } s.controller_list }) id b v = some r
  by_cases hcfg : s.configuring = true
  · rw [if_pos hcfg]
    by_cases hm : s.has_mapping_callback = true
    · have hpre : preSetButton s id b = some { s with controller_list := insertOrAssign id { cd with buttons := tryEmplace b false cd.buttons } s.controller_list } := by
        unfold preSetButton
        rw [hc]
      rw [triggerOnButtonChange_detect s _ id b v hcfg hm hpre]
      by_cases hv : v = getButton { s with controller_list := insertOrAssign id { cd with buttons := tryEmplace b false cd.buttons } s.controller_list } id b
      · rw [if_pos hv]
        exact ⟨_, rfl⟩
      · rw [if_neg hv]
        exact ⟨_, rfl⟩
    · have hm2 : s.has_mapping_callback = false := bool_eq_false_of_not_true _ hm
      exact ⟨_, triggerOnButtonChange_pass s id b v (by rw [hm2]; simp)⟩
  · have hcfg2 : s.configuring = false := bool_eq_false_of_not_true _ hcfg
    rw [if_neg hcfg]
    refine ⟨_, triggerOnButtonChange_pass _ id b v ?_⟩
    show (!s.configuring || !s.has_mapping_callback) = true
    rw [hcfg2]
    rfl

lemma setButton_none_of_unknown (s : InputEngineState) (id : PadIdentifier)
    (b : Int) (v : Bool) (h : lookupKey id s.controller_list = none) :
    setButton s id b v = none := by
  unfold setButton
  rw [h]

lemma setHatButton_none_of_unknown (s : InputEngineState) (id : PadIdentifier)
    (b : Int) (v : Nat) (h : lookupKey id s.controller_list = none) :
    setHatButton s id b v = none := by
  unfold setHatButton
  rw [h]

lemma setAxis_none_of_unknown (s : InputEngineState) (id : PadIdentifier)
    (a : Int) (v : Rat) (h : lookupKey id s.controller_list = none) :
    setAxis s id a v = none := by
  unfold setAxis
  rw [h]

lemma setBattery_none_of_unknown (s : InputEngineState) (id : PadIdentifier)
    (v : BatteryLevel) (h : lookupKey id s.controller_list = none) :
    setBattery s id v = none := by
  unfold setBattery
  rw [h]

lemma setMotion_none_of_unknown (s : InputEngineState) (id : PadIdentifier)
    (m : Int) (v : BasicMotion) (h : lookupKey id s.controller_list = none) :
    setMotion s id m v = none := by
  unfold setMotion
  rw [h]

lemma preSetButton_none_of_unknown (s : InputEngineState) (id : PadIdentifier)
    (b : Int) (h : lookupKey id s.controller_list = none) :
    preSetButton s id b = none := by
  unfold preSetButton
  rw [h]

lemma preSetHatButton_none_of_unknown (s : InputEngineState) (id : PadIdentifier)
    (b : Int) (h : lookupKey id s.controller_list = none) :
    preSetHatButton s id b = none := by
  unfold preSetHatButton
  rw [h]

lemma preSetAxis_none_of_unknown (s : InputEngineState) (id : PadIdentifier)
    (a : Int) (h : lookupKey id s.controller_list = none) :
    preSetAxis s id a = none := by
  unfold preSetAxis
  rw [h]

lemma preSetMotion_none_of_unknown (s : InputEngineState) (id : PadIdentifier)
    (m : Int) (h : lookupKey id s.controller_list = none) :
    preSetMotion s id m = none := by
  unfold preSetMotion
  rw [h]

lemma preSetController_registers (s : InputEngineState) (id : PadIdentifier)
    (h : lookupKey id s.controller_list = none) :
    lookupKey id (preSetController s id).controller_list = some {} := by
  unfold preSetController
  show lookupKey id (tryEmplace id {} s.controller_list) = some {}
  exact lookupKey_tryEmplace_none id {} s.controller_list h

lemma runRegOps_pairwise (ops : List RegOp) :
    ∀ s : InputEngineState, List.Pairwise (fun a b => a < b) (runRegOps ops s).2 := by
  induction ops with
  | nil =>
    intro s
    exact List.Pairwise.nil
  | cons op t ih =>
    intro s
    cases op with
    | sub ii =>
      show List.Pairwise _ ((setCallback s ii).2 :: (runRegOps t (setCallback s ii).1).2)
      refine List.Pairwise.cons ?_ (ih _)
      intro k hk
      have h1 := runRegOps_key_ge t (setCallback s ii).1 k hk
      have h2 : (setCallback s ii).1.last_callback_key = s.last_callback_key + 1 := rfl
      rw [h2] at h1
      show s.last_callback_key < k
      omega
    | del k2 =>
      show List.Pairwise _ (runRegOps t (deleteCallback s k2)).2
      exact ih _

/-- C1: for every mutator `Set{Button,HatButton,Axis,Battery,Motion}` on a
pre-registered device and index, the call succeeds, and the stored value
afterwards is the written value when the engine is in normal mode and the
previous stored value when the engine is in configuring mode. -/
theorem c1_set_mutators_mode_gated (s : InputEngineState) (id : PadIdentifier)
    (bIdx hIdx aIdx mIdx : Int) (vb0 : Bool) (vh0 : Nat) (va0 : Rat)
    (vm0 : BasicMotion) (cd : ControllerData)
    (hb0 : storedButton s id bIdx = some vb0)
    (hh0 : storedHatButton s id hIdx = some vh0)
    (ha0 : storedAxis s id aIdx = some va0)
    (hm0 : storedMotion s id mIdx = some vm0)
    (hcd : lookupKey id s.controller_list = some cd)
    (vb : Bool) (vh : Nat) (va : Rat) (vbat : BatteryLevel) (vm : BasicMotion) :
    (∃ s2 ev, setButton s id bIdx vb = some (s2, ev) ∧
      storedButton s2 id bIdx = (if s.configuring then storedButton s id bIdx else some vb)) ∧
    (∃ s2 ev, setHatButton s id hIdx vh = some (s2, ev) ∧
      storedHatButton s2 id hIdx = (if s.configuring then storedHatButton s id hIdx else some vh)) ∧
    (∃ s2 ev, setAxis s id aIdx va = some (s2, ev) ∧
      storedAxis s2 id aIdx = (if s.configuring then storedAxis s id aIdx else some va)) ∧
    (∃ s2 ev, setBattery s id vbat = some (s2, ev) ∧
      storedBattery s2 id = (if s.configuring then storedBattery s id else some vbat)) ∧
    (∃ s2 ev, setMotion s id mIdx vm = some (s2, ev) ∧
      storedMotion s2 id mIdx = (if s.configuring then storedMotion s id mIdx else some vm)) :=
  ⟨setButton_gating s id bIdx vb vb0 hb0,
   setHatButton_gating s id hIdx vh vh0 hh0,
   setAxis_gating s id aIdx va va0 ha0,
   setBattery_gating s id vbat cd hcd,
   setMotion_gating s id mIdx vm vm0 hm0⟩

theorem c1_set_mutators_mode_gated_witness :
    (∃ s2 ev, setButton egNormal pid0 0 false = some (s2, ev) ∧
      storedButton s2 pid0 0 = (if egNormal.configuring then storedButton egNormal pid0 0 else some false)) ∧
    (∃ s2 ev, setHatButton egNormal pid0 1 5 = some (s2, ev) ∧
      storedHatButton s2 pid0 1 = (if egNormal.configuring then storedHatButton egNormal pid0 1 else some 5)) ∧
    (∃ s2 ev, setAxis egNormal pid0 2 (1/2) = some (s2, ev) ∧
      storedAxis s2 pid0 2 = (if egNormal.configuring then storedAxis egNormal pid0 2 else some (1/2))) ∧
    (∃ s2 ev, setBattery egNormal pid0 BatteryLevel.Charging = some (s2, ev) ∧
      storedBattery s2 pid0 = (if egNormal.configuring then storedBattery egNormal pid0 else some BatteryLevel.Charging)) ∧
    (∃ s2 ev, setMotion egNormal pid0 4 {} = some (s2, ev) ∧
      storedMotion s2 pid0 4 = (if egNormal.configuring then storedMotion egNormal pid0 4 else some {})) :=
  c1_set_mutators_mode_gated egNormal pid0 0 1 2 4 true 3 1 {} egCd
    (by decide) (by decide) (by decide) (by decide) (by decide)
    false 5 (1/2) BatteryLevel.Charging {}

/-- C2: the getters return logged defaults for an unknown device identity
(`false`, `0`, `Charging`, a zeroed motion sample), but `GetMotion` on a
known identity with a motion index never pre-set performs an unchecked
`motions.at(motion)` and hard-faults (modelled as `none`) instead of
returning the zeroed default the specification promises. -/
theorem c2_getmotion_unknown_index_faults :
    getButton egEmpty pid0 0 = false ∧
    getAxis egEmpty pid0 2 = 0 ∧
    getBattery egEmpty pid0 = BatteryLevel.Charging ∧
    getMotion egEmpty pid0 0 = some {} ∧
    getMotion (preSetController egEmpty pid0) pid0 0 = none := by
  refine ⟨rfl, rfl, rfl, rfl, ?_⟩
  decide

/-- C6: across any sequence of registry operations, the keys returned by the
`SetCallback` calls are pairwise strictly increasing — no key is ever issued
twice, even after deletions — and `DeleteCallback` never changes the key
counter. -/
theorem c6_callback_key_monotonic (ops : List RegOp) (s : InputEngineState)
    (k : Int) :
    List.Pairwise (fun a b => a < b) (runRegOps ops s).2 ∧
    (deleteCallback s k).last_callback_key = s.last_callback_key :=
  ⟨runRegOps_pairwise ops s, deleteCallback_last s k⟩

/-- C7: every `PreSet*` on a registered device is a complete no-op when the
index is already present (the state is unchanged, so the stored value is
never overwritten), and registers the default-valued entry when the index is
absent; a second call after registration is again a no-op. -/
theorem c7_preset_idempotent (s : InputEngineState) (id : PadIdentifier)
    (cd : ControllerData) (bP bA hP hA aP aA mP mA : Int)
    (vb : Bool) (vh : Nat) (va : Rat) (vm : BasicMotion)
    (hcd : lookupKey id s.controller_list = some cd)
    (hbP : lookupKey bP cd.buttons = some vb)
    (hbA : lookupKey bA cd.buttons = none)
    (hhP : lookupKey hP cd.hat_buttons = some vh)
    (hhA : lookupKey hA cd.hat_buttons = none)
    (haP : lookupKey aP cd.axes = some va)
    (haA : lookupKey aA cd.axes = none)
    (hmP : lookupKey mP cd.motions = some vm)
    (hmA : lookupKey mA cd.motions = none) :
    (preSetButton s id bP = some s) ∧
    (∃ s2, preSetButton s id bA = some s2 ∧ storedButton s2 id bA = some false ∧
      preSetButton s2 id bA = some s2) ∧
    (preSetHatButton s id hP = some s) ∧
    (∃ s2, preSetHatButton s id hA = some s2 ∧ storedHatButton s2 id hA = some 0 ∧
      preSetHatButton s2 id hA = some s2) ∧
    (preSetAxis s id aP = some s) ∧
    (∃ s2, preSetAxis s id aA = some s2 ∧ storedAxis s2 id aA = some 0 ∧
      preSetAxis s2 id aA = some s2) ∧
    (preSetMotion s id mP = some s) ∧
    (∃ s2, preSetMotion s id mA = some s2 ∧ storedMotion s2 id mA = some {} ∧
      preSetMotion s2 id mA = some s2) := by
  rcases preSetButton_register s id bA cd hcd hbA with ⟨sb, hsb1, hsb2, hsb3, hsb4⟩
  rcases preSetHatButton_register s id hA cd hcd hhA with ⟨sh, hsh1, hsh2, hsh3, hsh4⟩
  rcases preSetAxis_register s id aA cd hcd haA with ⟨sa, hsa1, hsa2, hsa3, hsa4⟩
  rcases preSetMotion_register s id mA cd hcd hmA with ⟨sm, hsm1, hsm2, hsm3, hsm4⟩
  exact ⟨preSetButton_noop s id bP cd vb hcd hbP, ⟨sb, hsb1, hsb2, hsb4⟩,
    preSetHatButton_noop s id hP cd vh hcd hhP, ⟨sh, hsh1, hsh2, hsh4⟩,
    preSetAxis_noop s id aP cd va hcd haP, ⟨sa, hsa1, hsa2, hsa4⟩,
    preSetMotion_noop s id mP cd vm hcd hmP, ⟨sm, hsm1, hsm2, hsm4⟩⟩

theorem c7_preset_idempotent_witness :
    (preSetButton egNormal pid0 0 = some egNormal) ∧
    (∃ s2, preSetButton egNormal pid0 9 = some s2 ∧ storedButton s2 pid0 9 = some false ∧
      preSetButton s2 pid0 9 = some s2) ∧
    (preSetHatButton egNormal pid0 1 = some egNormal) ∧
    (∃ s2, preSetHatButton egNormal pid0 9 = some s2 ∧ storedHatButton s2 pid0 9 = some 0 ∧
      preSetHatButton s2 pid0 9 = some s2) ∧
    (preSetAxis egNormal pid0 2 = some egNormal) ∧
    (∃ s2, preSetAxis egNormal pid0 9 = some s2 ∧ storedAxis s2 pid0 9 = some 0 ∧
      preSetAxis s2 pid0 9 = some s2) ∧
    (preSetMotion egNormal pid0 4 = some egNormal) ∧
    (∃ s2, preSetMotion egNormal pid0 9 = some s2 ∧ storedMotion s2 pid0 9 = some {} ∧
      preSetMotion s2 pid0 9 = some s2) :=
  c7_preset_idempotent egNormal pid0 egCd 0 9 1 9 2 9 4 9 true 3 1 {}
    (by decide) (by decide) (by decide) (by decide) (by decide) (by decide)
    (by decide) (by decide) (by decide)

/-- C8: `DeleteCallback` with an unknown key leaves the engine state
completely unchanged (a logged no-op), while with a registered key it
removes exactly that subscription: the key no longer resolves, every other
key resolves as before, and the rest of the engine state is untouched. -/
theorem c8_delete_callback (s : InputEngineState) (keyU keyK : Int)
    (ii : InputIdentifier)
    (hnd : (s.callback_list.map Prod.fst).Nodup)
    (hU : lookupKey keyU s.callback_list = none)
    (hK : lookupKey keyK s.callback_list = some ii) :
    deleteCallback s keyU = s ∧
    lookupKey keyK (deleteCallback s keyK).callback_list = none ∧
    (∀ k2, k2 ≠ keyK →
      lookupKey k2 (deleteCallback s keyK).callback_list = lookupKey k2 s.callback_list) ∧
    (deleteCallback s keyK).controller_list = s.controller_list ∧
    (deleteCallback s keyK).last_callback_key = s.last_callback_key := by
  refine ⟨?_, ?_, ?_, deleteCallback_controller s keyK, deleteCallback_last s keyK⟩
  · unfold deleteCallback
    rw [hU]
  · unfold deleteCallback
    rw [hK]
    show lookupKey keyK (eraseKey keyK s.callback_list) = none
    exact lookupKey_eraseKey_self keyK s.callback_list hnd
  · intro k2 h2
    unfold deleteCallback
    rw [hK]
    show lookupKey k2 (eraseKey keyK s.callback_list) = lookupKey k2 s.callback_list
    exact lookupKey_eraseKey_ne keyK k2 s.callback_list h2

theorem c8_delete_callback_witness :
    deleteCallback egListen 9 = egListen ∧
    lookupKey 7 (deleteCallback egListen 7).callback_list = none ∧
    lookupKey 5 (deleteCallback egListen 7).callback_list = lookupKey 5 egListen.callback_list ∧
    (deleteCallback egListen 7).controller_list = egListen.controller_list ∧
    (deleteCallback egListen 7).last_callback_key = egListen.last_callback_key := by
  rcases c8_delete_callback egListen 9 7 egSub (by decide) (by decide) (by decide) with
    ⟨h1, h2, h3, h4, h5⟩
  exact ⟨h1, h2, h3 5 (by decide), h4, h5⟩

/-- C10: every `Set*` and `PreSet*` on a device identity that was never
registered through `PreSetController` hard-faults (the unchecked
`controller_list.at` lookup, modelled as `none`) rather than creating the
entry or degrading to a logged no-op; registering the identity first makes
every such call succeed. -/
theorem c10_unregistered_identity_faults (s : InputEngineState)
    (id : PadIdentifier) (b a m : Int) (vb : Bool) (vh : Nat) (va : Rat)
    (vbat : BatteryLevel) (vm : BasicMotion)
    (h : lookupKey id s.controller_list = none) :
    setButton s id b vb = none ∧
    setHatButton s id b vh = none ∧
    setAxis s id a va = none ∧
    setBattery s id vbat = none ∧
    setMotion s id m vm = none ∧
    preSetButton s id b = none ∧
    preSetHatButton s id b = none ∧
    preSetAxis s id a = none ∧
    preSetMotion s id m = none ∧
    (setButton (preSetController s id) id b vb).isSome = true ∧
    (setHatButton (preSetController s id) id b vh).isSome = true ∧
    (setAxis (preSetController s id) id a va).isSome = true ∧
    (setBattery (preSetController s id) id vbat).isSome = true ∧
    (setMotion (preSetController s id) id m vm).isSome = true ∧
    (preSetButton (preSetController s id) id b).isSome = true ∧
    (preSetHatButton (preSetController s id) id b).isSome = true ∧
    (preSetAxis (preSetController s id) id a).isSome = true ∧
    (preSetMotion (preSetController s id) id m).isSome = true := by
  have hreg := preSetController_registers s id h
  rcases setButton_succeeds (preSetController s id) id b vb {} hreg with ⟨r1, hr1⟩
  rcases setHatButton_succeeds (preSetController s id) id b vh {} hreg with ⟨r2, hr2⟩
  rcases setAxis_succeeds (preSetController s id) id a va {} hreg with ⟨r3, hr3⟩
  rcases setBattery_succeeds (preSetController s id) id vbat {} hreg with ⟨r4, hr4⟩
  rcases setMotion_succeeds (preSetController s id) id m vm {} hreg with ⟨r5, hr5⟩
  rcases preSetButton_succeeds (preSetController s id) id b {} hreg with ⟨r6, hr6⟩
  rcases preSetHatButton_succeeds (preSetController s id) id b {} hreg with ⟨r7, hr7⟩
  rcases preSetAxis_succeeds (preSetController s id) id a {} hreg with ⟨r8, hr8⟩
  rcases preSetMotion_succeeds (preSetController s id) id m {} hreg with ⟨r9, hr9⟩
  refine ⟨setButton_none_of_unknown s id b vb h,
    setHatButton_none_of_unknown s id b vh h,
    setAxis_none_of_unknown s id a va h,
    setBattery_none_of_unknown s id vbat h,
    setMotion_none_of_unknown s id m vm h,
    preSetButton_none_of_unknown s id b h,
    preSetHatButton_none_of_unknown s id b h,
    preSetAxis_none_of_unknown s id a h,
    preSetMotion_none_of_unknown s id m h, ?_, ?_, ?_, ?_, ?_, ?_, ?_, ?_, ?_⟩
  · rw [hr1]; rfl
  · rw [hr2]; rfl
  · rw [hr3]; rfl
  · rw [hr4]; rfl
  · rw [hr5]; rfl
  · rw [hr6]; rfl
  · rw [hr7]; rfl
  · rw [hr8]; rfl
  · rw [hr9]; rfl

theorem c10_unregistered_identity_faults_witness :
    setButton egEmpty pid0 0 true = none ∧
    setHatButton egEmpty pid0 0 1 = none ∧
    setAxis egEmpty pid0 2 1 = none ∧
    setBattery egEmpty pid0 BatteryLevel.Full = none ∧
    setMotion egEmpty pid0 4 {} = none ∧
    preSetButton egEmpty pid0 0 = none ∧
    preSetHatButton egEmpty pid0 0 = none ∧
    preSetAxis egEmpty pid0 2 = none ∧
    preSetMotion egEmpty pid0 4 = none ∧
    (setButton (preSetController egEmpty pid0) pid0 0 true).isSome = true ∧
    (setHatButton (preSetController egEmpty pid0) pid0 0 1).isSome = true ∧
    (setAxis (preSetController egEmpty pid0) pid0 2 1).isSome = true ∧
    (setBattery (preSetController egEmpty pid0) pid0 BatteryLevel.Full).isSome = true ∧
    (setMotion (preSetController egEmpty pid0) pid0 4 {}).isSome = true ∧
    (preSetButton (preSetController egEmpty pid0) pid0 0).isSome = true ∧
    (preSetHatButton (preSetController egEmpty pid0) pid0 0).isSome = true ∧
    (preSetAxis (preSetController egEmpty pid0) pid0 2).isSome = true ∧
    (preSetMotion (preSetController egEmpty pid0) pid0 4).isSome = true :=
  c10_unregistered_identity_faults egEmpty pid0 0 2 4 true 1 1 BatteryLevel.Full {}
    (by decide)

lemma setAxis_mapping_ite (s : InputEngineState) (id : PadIdentifier)
    (a : Int) (v v0 : Rat) (hcfg : s.configuring = true)
    (hm : s.has_mapping_callback = true) (h0 : storedAxis s id a = some v0) :
    ∃ s2 ev, setAxis s id a v = some (s2, ev) ∧
      mappingEvents ev =
        (if |v - v0| < 1/2 then [] else
          [{ engine := s.input_engine, pad := id, type := EngineInputType.Analog, index := a, axis_value := v }]) := by
  rcases storedAxis_split s id a v0 h0 with ⟨cd, hc, hb⟩
  have hga : getAxis s id a = v0 := getAxis_eq_of_stored s id a v0 h0
  unfold setAxis
  rw [hc]
  show ∃ s2 ev, some (triggerOnAxisChange (if s.configuring = true then s else { s with controller_list := insertOrAssign id { cd with axes := insertOrAssign a v cd.axes } s.controller_list }) id a v) = some (s2, ev) ∧ mappingEvents ev = (if |v - v0| < 1/2 then [] else [{ engine := s.input_engine, pad := id, type := EngineInputType.Analog, index := a, axis_value := v }])
  rw [if_pos hcfg]
  unfold triggerOnAxisChange
  have hp : (!s.configuring || !s.has_mapping_callback) = false := by
    rw [hcfg, hm]
    rfl
  rw [hp, if_neg Bool.false_ne_true, hga]
  by_cases habs : |v - v0| < 1/2
  · rw [if_pos habs, if_pos habs]
    exact ⟨s, notifiesFor s id EngineInputType.Analog a, rfl,
      mappingEvents_notifiesFor s id EngineInputType.Analog a⟩
  · rw [if_neg habs, if_neg habs]
    refine ⟨s, notifiesFor s id EngineInputType.Analog a ++ [EngineEvent.mapping { engine := s.input_engine, pad := id, type := EngineInputType.Analog, index := a, axis_value := v }], rfl, ?_⟩
    rw [mappingEvents_append, mappingEvents_notifiesFor]
    rfl

/-- C3 (amended): in configuring mode with a mapping observer and stored axis
value v0, `SetAxis` emits exactly one mapping event carrying the incoming
value if and only if the absolute difference from the stored value is at
least 0.5 (the code suppresses only deltas strictly below 0.5, so a delta of
exactly 0.5 emits), and emits nothing otherwise. -/
theorem c3_axis_threshold (s : InputEngineState) (id : PadIdentifier)
    (a : Int) (v v0 : Rat) (hcfg : s.configuring = true)
    (hm : s.has_mapping_callback = true) (h0 : storedAxis s id a = some v0) :
    ∃ s2 ev, setAxis s id a v = some (s2, ev) ∧
      mappingEvents ev =
        (if |v - v0| < 1/2 then [] else
          [{ engine := s.input_engine, pad := id, type := EngineInputType.Analog, index := a, axis_value := v }]) :=
  setAxis_mapping_ite s id a v v0 hcfg hm h0

theorem c3_axis_threshold_witness :
    (∃ s2 ev, setAxis egCfg pid0 3 (3/10) = some (s2, ev) ∧
      mappingEvents ev =
        (if |(3/10 : Rat) - 0| < 1/2 then [] else
          [{ engine := egCfg.input_engine, pad := pid0, type := EngineInputType.Analog, index := 3, axis_value := 3/10 }])) ∧
    (∃ s2 ev, setAxis egCfg pid0 3 (3/5) = some (s2, ev) ∧
      mappingEvents ev =
        (if |(3/5 : Rat) - 0| < 1/2 then [] else
          [{ engine := egCfg.input_engine, pad := pid0, type := EngineInputType.Analog, index := 3, axis_value := 3/5 }])) :=
  ⟨c3_axis_threshold egCfg pid0 3 (3/10) 0 rfl rfl (by decide),
   c3_axis_threshold egCfg pid0 3 (3/5) 0 rfl rfl (by decide)⟩

/-- C3 counterexample: with stored axis value 0, an incoming value of exactly
0.5 yields a delta that does not exceed the 0.5 threshold, yet the code
(which suppresses only deltas strictly below 0.5) emits a mapping event —
refuting the claim that an event is emitted if and only if the delta exceeds
0.5. -/
theorem c3_boundary_counterexample :
    (∃ s2 ev, setAxis egCfg pid0 3 (1/2) = some (s2, ev) ∧
      mappingEvents ev = [{ engine := egCfg.input_engine, pad := pid0, type := EngineInputType.Analog, index := 3, axis_value := 1/2 }]) ∧
    ¬(|(1/2 : Rat) - 0| > 1/2) := by
  constructor
  · rcases setAxis_mapping_ite egCfg pid0 3 (1/2) 0 rfl rfl (by decide) with ⟨s2, ev, h1, h2⟩
    refine ⟨s2, ev, h1, ?_⟩
    rw [h2, if_neg ?_]
    rw [sub_zero, abs_of_nonneg (by norm_num : (0 : Rat) ≤ 1/2)]
    exact lt_irrefl _
  · rw [sub_zero, abs_of_nonneg (by norm_num : (0 : Rat) ≤ 1/2)]
    exact lt_irrefl _

lemma setHatButton_mapping_filter (s : InputEngineState) (id : PadIdentifier)
    (b : Int) (v m0 : Nat) (hcfg : s.configuring = true)
    (hm : s.has_mapping_callback = true) (h0 : storedHatButton s id b = some m0) :
    ∃ s2 ev, setHatButton s id b v = some (s2, ev) ∧
      mappingEvents ev =
        ((hatDirections.filter fun i => decide ((v &&& i) ≠ 0) != decide ((m0 &&& i) ≠ 0)).map
          fun i => { engine := s.input_engine, pad := id, type := EngineInputType.HatButton, index := b, hat_name := hatButtonName i }) := by
  rcases storedHatButton_split s id b m0 h0 with ⟨cd, hc, hb⟩
  unfold setHatButton
  rw [hc]
  show ∃ s2 ev, some (triggerOnHatButtonChange (if s.configuring = true then s else { s with controller_list := insertOrAssign id { cd with hat_buttons := insertOrAssign b v cd.hat_buttons } s.controller_list }) id b v) = some (s2, ev) ∧ mappingEvents ev = ((hatDirections.filter fun i => decide ((v &&& i) ≠ 0) != decide ((m0 &&& i) ≠ 0)).map fun i => { engine := s.input_engine, pad := id, type := EngineInputType.HatButton, index := b, hat_name := hatButtonName i })
  rw [if_pos hcfg]
  unfold triggerOnHatButtonChange
  have hp : (!s.configuring || !s.has_mapping_callback) = false := by
    rw [hcfg, hm]
    rfl
  rw [hp, if_neg Bool.false_ne_true]
  have hget : ∀ i : Nat, getHatButton s id b i = decide ((m0 &&& i) ≠ 0) :=
    fun i => getHatButton_eq_of_stored s id b m0 i h0
  refine ⟨s, _, rfl, ?_⟩
  rw [mappingEvents_append, mappingEvents_notifiesFor, List.nil_append]
  simp only [hget]
  rw [filterMap_ite_ne (fun i => decide ((v &&& i) ≠ 0)) (fun i => decide ((m0 &&& i) ≠ 0)) (fun i => EngineEvent.mapping { engine := s.input_engine, pad := id, type := EngineInputType.HatButton, index := b, hat_name := hatButtonName i }) hatDirections]
  rw [mappingEvents_map_mapping]

/-- C4: in configuring mode with a mapping observer, `SetHatButton` emits one
mapping event per direction bit among 1, 2, 4, 8, 16, 32, 64, 128 at which
the incoming 8-bit mask differs from the stored mask, each event naming that
specific direction, and no other events. -/
theorem c4_hat_per_direction (s : InputEngineState) (id : PadIdentifier)
    (b : Int) (v m0 : Nat) (hcfg : s.configuring = true)
    (hm : s.has_mapping_callback = true) (h0 : storedHatButton s id b = some m0) :
    ∃ s2 ev, setHatButton s id b v = some (s2, ev) ∧
      mappingEvents ev =
        ((hatDirections.filter fun i => decide ((v &&& i) ≠ 0) != decide ((m0 &&& i) ≠ 0)).map
          fun i => { engine := s.input_engine, pad := id, type := EngineInputType.HatButton, index := b, hat_name := hatButtonName i }) :=
  setHatButton_mapping_filter s id b v m0 hcfg hm h0

theorem c4_hat_per_direction_witness :
    (∃ s2 ev, setHatButton egCfg pid0 0 5 = some (s2, ev) ∧
      mappingEvents ev =
        ((hatDirections.filter fun i => decide ((5 &&& i) ≠ 0) != decide ((0 &&& i) ≠ 0)).map
          fun i => { engine := egCfg.input_engine, pad := pid0, type := EngineInputType.HatButton, index := 0, hat_name := hatButtonName i })) ∧
    ((hatDirections.filter fun i => decide ((5 &&& i) ≠ 0) != decide ((0 &&& i) ≠ 0)).map
      fun i => ({ engine := egCfg.input_engine, pad := pid0, type := EngineInputType.HatButton, index := 0, hat_name := hatButtonName i } : MappingData)).length = 2 :=
  ⟨c4_hat_per_direction egCfg pid0 0 5 0 rfl rfl (by decide), by decide⟩

/-- C5: for every mutator call on a registered device, a subscription with a
changed notifier is notified if and only if its (device identity, input
kind, input index) triple equals the event's triple; the battery event's
index is 0. -/
theorem c5_listener_matching (s : InputEngineState) (id : PadIdentifier)
    (k : Int) (ii : InputIdentifier) (cd : ControllerData)
    (b hb a m : Int) (vb : Bool) (vh : Nat) (va : Rat) (vbat : BatteryLevel)
    (vm : BasicMotion)
    (hnd : (s.callback_list.map Prod.fst).Nodup)
    (hmem : (k, ii) ∈ s.callback_list)
    (hon : ii.has_on_change = true)
    (hcd : lookupKey id s.controller_list = some cd) :
    (∃ s2 ev, setButton s id b vb = some (s2, ev) ∧
      (EngineEvent.notify k ∈ ev ↔
        (ii.identifier = id ∧ ii.type = EngineInputType.Button ∧ ii.index = b))) ∧
    (∃ s2 ev, setHatButton s id hb vh = some (s2, ev) ∧
      (EngineEvent.notify k ∈ ev ↔
        (ii.identifier = id ∧ ii.type = EngineInputType.HatButton ∧ ii.index = hb))) ∧
    (∃ s2 ev, setAxis s id a va = some (s2, ev) ∧
      (EngineEvent.notify k ∈ ev ↔
        (ii.identifier = id ∧ ii.type = EngineInputType.Analog ∧ ii.index = a))) ∧
    (∃ s2 ev, setBattery s id vbat = some (s2, ev) ∧
      (EngineEvent.notify k ∈ ev ↔
        (ii.identifier = id ∧ ii.type = EngineInputType.Battery ∧ ii.index = 0))) ∧
    (∃ s2 ev, setMotion s id m vm = some (s2, ev) ∧
      (EngineEvent.notify k ∈ ev ↔
        (ii.identifier = id ∧ ii.type = EngineInputType.Motion ∧ ii.index = m))) := by
  refine ⟨?_, ?_, ?_, ?_, ?_⟩
  · rcases setButton_succeeds s id b vb cd hcd with ⟨⟨s2, ev⟩, hr⟩
    refine ⟨s2, ev, hr, ?_⟩
    rcases setButton_some_shape s id b vb s2 ev hr with ⟨mm, hev, hmm⟩
    rw [hev, notify_mem_append_mapping k _ mm hmm,
      notify_mem_notifiesFor_iff s id EngineInputType.Button b k ii hnd hmem hon,
      isInputIdentifierEqual_iff]
  · rcases setHatButton_succeeds s id hb vh cd hcd with ⟨⟨s2, ev⟩, hr⟩
    refine ⟨s2, ev, hr, ?_⟩
    rcases setHatButton_some_shape s id hb vh s2 ev hr with ⟨mm, hev, hmm⟩
    rw [hev, notify_mem_append_mapping k _ mm hmm,
      notify_mem_notifiesFor_iff s id EngineInputType.HatButton hb k ii hnd hmem hon,
      isInputIdentifierEqual_iff]
  · rcases setAxis_succeeds s id a va cd hcd with ⟨⟨s2, ev⟩, hr⟩
    refine ⟨s2, ev, hr, ?_⟩
    rcases setAxis_some_shape s id a va s2 ev hr with ⟨mm, hev, hmm⟩
    rw [hev, notify_mem_append_mapping k _ mm hmm,
      notify_mem_notifiesFor_iff s id EngineInputType.Analog a k ii hnd hmem hon,
      isInputIdentifierEqual_iff]
  · rcases setBattery_succeeds s id vbat cd hcd with ⟨⟨s2, ev⟩, hr⟩
    refine ⟨s2, ev, hr, ?_⟩
    have hev := setBattery_some_shape s id vbat s2 ev hr
    rw [hev,
      notify_mem_notifiesFor_iff s id EngineInputType.Battery 0 k ii hnd hmem hon,
      isInputIdentifierEqual_iff]
  · rcases setMotion_succeeds s id m vm cd hcd with ⟨⟨s2, ev⟩, hr⟩
    refine ⟨s2, ev, hr, ?_⟩
    rcases setMotion_some_shape s id m vm s2 ev hr with ⟨mm, hev, hmm⟩
    rw [hev, notify_mem_append_mapping k _ mm hmm,
      notify_mem_notifiesFor_iff s id EngineInputType.Motion m k ii hnd hmem hon,
      isInputIdentifierEqual_iff]

theorem c5_listener_matching_witness :
    (∃ s2 ev, setButton egListen pid0 5 true = some (s2, ev) ∧
      (EngineEvent.notify 7 ∈ ev ↔
        (egSub.identifier = pid0 ∧ egSub.type = EngineInputType.Button ∧ egSub.index = 5))) ∧
    (∃ s2 ev, setHatButton egListen pid0 1 2 = some (s2, ev) ∧
      (EngineEvent.notify 7 ∈ ev ↔
        (egSub.identifier = pid0 ∧ egSub.type = EngineInputType.HatButton ∧ egSub.index = 1))) ∧
    (∃ s2 ev, setAxis egListen pid0 2 1 = some (s2, ev) ∧
      (EngineEvent.notify 7 ∈ ev ↔
        (egSub.identifier = pid0 ∧ egSub.type = EngineInputType.Analog ∧ egSub.index = 2))) ∧
    (∃ s2 ev, setBattery egListen pid0 BatteryLevel.Full = some (s2, ev) ∧
      (EngineEvent.notify 7 ∈ ev ↔
        (egSub.identifier = pid0 ∧ egSub.type = EngineInputType.Battery ∧ egSub.index = 0))) ∧
    (∃ s2 ev, setMotion egListen pid0 4 {} = some (s2, ev) ∧
      (EngineEvent.notify 7 ∈ ev ↔
        (egSub.identifier = pid0 ∧ egSub.type = EngineInputType.Motion ∧ egSub.index = 4))) :=
  c5_listener_matching egListen pid0 7 egSub egCd 5 1 2 4 true 2 1
    BatteryLevel.Full {} (by decide) (by decide) (by decide) (by decide)

lemma triggerOnHatButtonChange_pass (s : InputEngineState) (id : PadIdentifier)
    (b : Int) (v : Nat) (h : (!s.configuring || !s.has_mapping_callback) = true) :
    triggerOnHatButtonChange s id b v =
      (s, notifiesFor s id EngineInputType.HatButton b) := by
  unfold triggerOnHatButtonChange
  rw [h]
  rfl

lemma triggerOnAxisChange_pass (s : InputEngineState) (id : PadIdentifier)
    (a : Int) (v : Rat) (h : (!s.configuring || !s.has_mapping_callback) = true) :
    triggerOnAxisChange s id a v =
      (s, notifiesFor s id EngineInputType.Analog a) := by
  unfold triggerOnAxisChange
  rw [h]
  rfl

lemma setButton_normal_spec (s : InputEngineState) (id : PadIdentifier) (b : Int)
    (v : Bool) (cd : ControllerData) (hcfg : s.configuring = false)
    (hc : lookupKey id s.controller_list = some cd) :
    ∃ s2, setButton s id b v = some (s2, notifiesFor s id EngineInputType.Button b) ∧
      s2.configuring = false ∧
      s2.callback_list = s.callback_list ∧
      storedButton s2 id b = some v ∧
      (∀ i b2, i ≠ id ∨ b2 ≠ b → storedButton s2 i b2 = storedButton s i b2) ∧
      (∀ i b2, storedHatButton s2 i b2 = storedHatButton s i b2) ∧
      (∀ i a2, storedAxis s2 i a2 = storedAxis s i a2) ∧
      (∀ i, (lookupKey i s2.controller_list).isSome = (lookupKey i s.controller_list).isSome) := by
  have hnot : ¬(s.configuring = true) := by
    rw [hcfg]
    exact Bool.false_ne_true
  refine ⟨{ s with controller_list := insertOrAssign id { cd with buttons := insertOrAssign b v cd.buttons } s.controller_list }, ?_, hcfg, rfl, ?_, ?_, ?_, ?_, ?_⟩
  · unfold setButton
    rw [hc]
    show triggerOnButtonChange (if s.configuring = true then s else { s with controller_list := insertOrAssign id { cd with buttons := insertOrAssign b v cd.buttons } s.controller_list }) id b v = _
    rw [if_neg hnot]
    exact triggerOnButtonChange_pass _ id b v (by show (!s.configuring || !s.has_mapping_callback) = true; rw [hcfg]; rfl)
  · unfold storedButton
    rw [lookupKey_insertOrAssign_self]
    show lookupKey b (insertOrAssign b v cd.buttons) = some v
    rw [lookupKey_insertOrAssign_self]
  · intro i b2 hi
    unfold storedButton
    by_cases hii : i = id
    · subst hii
      rw [lookupKey_insertOrAssign_self, hc]
      show lookupKey b2 (insertOrAssign b v cd.buttons) = lookupKey b2 cd.buttons
      rcases hi with hi | hi
      · exact absurd rfl hi
      · exact lookupKey_insertOrAssign_ne b b2 v cd.buttons hi
    · rw [lookupKey_insertOrAssign_ne id i _ s.controller_list hii]
  · intro i b2
    unfold storedHatButton
    by_cases hii : i = id
    · subst hii
      rw [lookupKey_insertOrAssign_self, hc]
    · rw [lookupKey_insertOrAssign_ne id i _ s.controller_list hii]
  · intro i a2
    unfold storedAxis
    by_cases hii : i = id
    · subst hii
      rw [lookupKey_insertOrAssign_self, hc]
    · rw [lookupKey_insertOrAssign_ne id i _ s.controller_list hii]
  · intro i
    exact lookupKey_isSome_insertOrAssign id i _ cd s.controller_list hc

lemma setHatButton_normal_spec (s : InputEngineState) (id : PadIdentifier)
    (b : Int) (v : Nat) (cd : ControllerData) (hcfg : s.configuring = false)
    (hc : lookupKey id s.controller_list = some cd) :
    ∃ s2, setHatButton s id b v = some (s2, notifiesFor s id EngineInputType.HatButton b) ∧
      s2.configuring = false ∧
      s2.callback_list = s.callback_list ∧
      storedHatButton s2 id b = some v ∧
      (∀ i b2, i ≠ id ∨ b2 ≠ b → storedHatButton s2 i b2 = storedHatButton s i b2) ∧
      (∀ i b2, storedButton s2 i b2 = storedButton s i b2) ∧
      (∀ i a2, storedAxis s2 i a2 = storedAxis s i a2) ∧
      (∀ i, (lookupKey i s2.controller_list).isSome = (lookupKey i s.controller_list).isSome) := by
  have hnot : ¬(s.configuring = true) := by
    rw [hcfg]
    exact Bool.false_ne_true
  refine ⟨{ s with controller_list := insertOrAssign id { cd with hat_buttons := insertOrAssign b v cd.hat_buttons } s.controller_list }, ?_, hcfg, rfl, ?_, ?_, ?_, ?_, ?_⟩
  · unfold setHatButton
    rw [hc]
    show some (triggerOnHatButtonChange (if s.configuring = true then s else { s with controller_list := insertOrAssign id { cd with hat_buttons := insertOrAssign b v cd.hat_buttons } s.controller_list }) id b v) = _
    rw [if_neg hnot]
    rw [triggerOnHatButtonChange_pass _ id b v (by show (!s.configuring || !s.has_mapping_callback) = true; rw [hcfg]; rfl)]
    rfl
  · unfold storedHatButton
    rw [lookupKey_insertOrAssign_self]
    show lookupKey b (insertOrAssign b v cd.hat_buttons) = some v
    rw [lookupKey_insertOrAssign_self]
  · intro i b2 hi
    unfold storedHatButton
    by_cases hii : i = id
    · subst hii
      rw [lookupKey_insertOrAssign_self, hc]
      show lookupKey b2 (insertOrAssign b v cd.hat_buttons) = lookupKey b2 cd.hat_buttons
      rcases hi with hi | hi
      · exact absurd rfl hi
      · exact lookupKey_insertOrAssign_ne b b2 v cd.hat_buttons hi
    · rw [lookupKey_insertOrAssign_ne id i _ s.controller_list hii]
  · intro i b2
    unfold storedButton
    by_cases hii : i = id
    · subst hii
      rw [lookupKey_insertOrAssign_self, hc]
    · rw [lookupKey_insertOrAssign_ne id i _ s.controller_list hii]
  · intro i a2
    unfold storedAxis
    by_cases hii : i = id
    · subst hii
      rw [lookupKey_insertOrAssign_self, hc]
    · rw [lookupKey_insertOrAssign_ne id i _ s.controller_list hii]
  · intro i
    exact lookupKey_isSome_insertOrAssign id i _ cd s.controller_list hc

lemma setAxis_normal_spec (s : InputEngineState) (id : PadIdentifier)
    (a : Int) (v : Rat) (cd : ControllerData) (hcfg : s.configuring = false)
    (hc : lookupKey id s.controller_list = some cd) :
    ∃ s2, setAxis s id a v = some (s2, notifiesFor s id EngineInputType.Analog a) ∧
      s2.configuring = false ∧
      s2.callback_list = s.callback_list ∧
      storedAxis s2 id a = some v ∧
      (∀ i a2, i ≠ id ∨ a2 ≠ a → storedAxis s2 i a2 = storedAxis s i a2) ∧
      (∀ i, (lookupKey i s2.controller_list).isSome = (lookupKey i s.controller_list).isSome) := by
  have hnot : ¬(s.configuring = true) := by
    rw [hcfg]
    exact Bool.false_ne_true
  refine ⟨{ s with controller_list := insertOrAssign id { cd with axes := insertOrAssign a v cd.axes } s.controller_list }, ?_, hcfg, rfl, ?_, ?_, ?_⟩
  · unfold setAxis
    rw [hc]
    show some (triggerOnAxisChange (if s.configuring = true then s else { s with controller_list := insertOrAssign id { cd with axes := insertOrAssign a v cd.axes } s.controller_list }) id a v) = _
    rw [if_neg hnot]
    rw [triggerOnAxisChange_pass _ id a v (by show (!s.configuring || !s.has_mapping_callback) = true; rw [hcfg]; rfl)]
    rfl
  · unfold storedAxis
    rw [lookupKey_insertOrAssign_self]
    show lookupKey a (insertOrAssign a v cd.axes) = some v
    rw [lookupKey_insertOrAssign_self]
  · intro i a2 hi
    unfold storedAxis
    by_cases hii : i = id
    · subst hii
      rw [lookupKey_insertOrAssign_self, hc]
      show lookupKey a2 (insertOrAssign a v cd.axes) = lookupKey a2 cd.axes
      rcases hi with hi | hi
      · exact absurd rfl hi
      · exact lookupKey_insertOrAssign_ne a a2 v cd.axes hi
    · rw [lookupKey_insertOrAssign_ne id i _ s.controller_list hii]
  · intro i
    exact lookupKey_isSome_insertOrAssign id i _ cd s.controller_list hc

lemma resetButtonsInner_spec (id : PadIdentifier) (bl : List (Int × Bool)) :
    ∀ s evs, s.configuring = false →
    (lookupKey id s.controller_list).isSome = true →
    ∃ s2 evs2, resetButtonsInner id bl s evs = some (s2, evs ++ evs2) ∧
      s2.configuring = false ∧
      s2.callback_list = s.callback_list ∧
      (∀ b, b ∈ bl.map Prod.fst → storedButton s2 id b = some false) ∧
      (∀ i b, i ≠ id ∨ b ∉ bl.map Prod.fst → storedButton s2 i b = storedButton s i b) ∧
      (∀ i b, storedHatButton s2 i b = storedHatButton s i b) ∧
      (∀ i a, storedAxis s2 i a = storedAxis s i a) ∧
      (∀ i, (lookupKey i s2.controller_list).isSome = (lookupKey i s.controller_list).isSome) ∧
      (∀ b, b ∈ bl.map Prod.fst → ∀ e ∈ notifiesFor s id EngineInputType.Button b, e ∈ evs2) := by
  induction bl with
  | nil =>
    intro s evs hcfg hpres
    refine ⟨s, [], ?_, hcfg, rfl, ?_, ?_, ?_, ?_, ?_, ?_⟩
    · show some (s, evs) = some (s, evs ++ [])
      rw [List.append_nil]
    · intro b hb
      simp at hb
    · intro i b _
      rfl
    · intro i b
      rfl
    · intro i a
      rfl
    · intro i
      rfl
    · intro b hb
      simp at hb
  | cons p t ih =>
    intro s evs hcfg hpres
    obtain ⟨cd, hc⟩ : ∃ cd, lookupKey id s.controller_list = some cd := by
      cases hx : lookupKey id s.controller_list with
      | none =>
        rw [hx] at hpres
        exact absurd hpres (by simp)
      | some cd => exact ⟨cd, rfl⟩
    rcases setButton_normal_spec s id p.1 false cd hcfg hc with
      ⟨sM, hset, hMcfg, hMcb, hMself, hMbtn, hMhat, hMax, hMpres⟩
    have hpres2 : (lookupKey id sM.controller_list).isSome = true := by
      rw [hMpres id]
      exact hpres
    rcases ih sM (evs ++ notifiesFor s id EngineInputType.Button p.1) hMcfg hpres2 with
      ⟨s2, evs2, hrun, h2cfg, h2cb, h2self, h2btn, h2hat, h2ax, h2pres, h2ev⟩
    have hcbs : s2.callback_list = s.callback_list := by
      rw [h2cb, hMcb]
    have hnfM : ∀ b2, notifiesFor sM id EngineInputType.Button b2 =
        notifiesFor s id EngineInputType.Button b2 := by
      intro b2
      exact notifiesFor_congr s sM id EngineInputType.Button b2 hMcb
    refine ⟨s2, notifiesFor s id EngineInputType.Button p.1 ++ evs2, ?_, h2cfg, hcbs, ?_, ?_, ?_, ?_, ?_, ?_⟩
    · simp only [resetButtonsInner]
      rw [hset]
      show resetButtonsInner id t sM (evs ++ notifiesFor s id EngineInputType.Button p.1) =
        some (s2, evs ++ (notifiesFor s id EngineInputType.Button p.1 ++ evs2))
      rw [hrun, List.append_assoc]
    · intro b hb
      simp only [List.map_cons, List.mem_cons] at hb
      by_cases hbt : b ∈ t.map Prod.fst
      · exact h2self b hbt
      · have hbp : b = p.1 := by
          rcases hb with h | h
          · exact h
          · exact absurd h hbt
        rw [h2btn id b (Or.inr hbt), hbp]
        exact hMself
    · intro i b hi
      rcases hi with hi | hi
      · rw [h2btn i b (Or.inl hi), hMbtn i b (Or.inl hi)]
      · simp only [List.map_cons, List.mem_cons, not_or] at hi
        rw [h2btn i b (Or.inr hi.2), hMbtn i b (Or.inr hi.1)]
    · intro i b
      rw [h2hat i b, hMhat i b]
    · intro i a
      rw [h2ax i a, hMax i a]
    · intro i
      rw [h2pres i, hMpres i]
    · intro b hb e he
      simp only [List.map_cons, List.mem_cons] at hb
      by_cases hbt : b ∈ t.map Prod.fst
      · have he2 : e ∈ notifiesFor sM id EngineInputType.Button b := by
          rw [hnfM b]
          exact he
        exact List.mem_append.mpr (Or.inr (h2ev b hbt e he2))
      · have hbp : b = p.1 := by
          rcases hb with h | h
          · exact h
          · exact absurd h hbt
        rw [hbp] at he
        exact List.mem_append.mpr (Or.inl he)

lemma resetHatsInner_spec (id : PadIdentifier) (bl : List (Int × Nat)) :
    ∀ s evs, s.configuring = false →
    (lookupKey id s.controller_list).isSome = true →
    ∃ s2 evs2, resetHatsInner id bl s evs = some (s2, evs ++ evs2) ∧
      s2.configuring = false ∧
      s2.callback_list = s.callback_list ∧
      (∀ b, b ∈ bl.map Prod.fst → storedHatButton s2 id b = some 0) ∧
      (∀ i b, i ≠ id ∨ b ∉ bl.map Prod.fst → storedHatButton s2 i b = storedHatButton s i b) ∧
      (∀ i b, storedButton s2 i b = storedButton s i b) ∧
      (∀ i a, storedAxis s2 i a = storedAxis s i a) ∧
      (∀ i, (lookupKey i s2.controller_list).isSome = (lookupKey i s.controller_list).isSome) ∧
      (∀ b, b ∈ bl.map Prod.fst → ∀ e ∈ notifiesFor s id EngineInputType.HatButton b, e ∈ evs2) := by
  induction bl with
  | nil =>
    intro s evs hcfg hpres
    refine ⟨s, [], ?_, hcfg, rfl, ?_, ?_, ?_, ?_, ?_, ?_⟩
    · show some (s, evs) = some (s, evs ++ [])
      rw [List.append_nil]
    · intro b hb
      simp at hb
    · intro i b _
      rfl
    · intro i b
      rfl
    · intro i a
      rfl
    · intro i
      rfl
    · intro b hb
      simp at hb
  | cons p t ih =>
    intro s evs hcfg hpres
    obtain ⟨cd, hc⟩ : ∃ cd, lookupKey id s.controller_list = some cd := by
      cases hx : lookupKey id s.controller_list with
      | none =>
        rw [hx] at hpres
        exact absurd hpres (by simp)
      | some cd => exact ⟨cd, rfl⟩
    rcases setHatButton_normal_spec s id p.1 0 cd hcfg hc with
      ⟨sM, hset, hMcfg, hMcb, hMself, hMbtn, hMhat, hMax, hMpres⟩
    have hpres2 : (lookupKey id sM.controller_list).isSome = true := by
      rw [hMpres id]
      exact hpres
    rcases ih sM (evs ++ notifiesFor s id EngineInputType.HatButton p.1) hMcfg hpres2 with
      ⟨s2, evs2, hrun, h2cfg, h2cb, h2self, h2btn, h2hat, h2ax, h2pres, h2ev⟩
    have hcbs : s2.callback_list = s.callback_list := by
      rw [h2cb, hMcb]
    have hnfM : ∀ b2, notifiesFor sM id EngineInputType.HatButton b2 =
        notifiesFor s id EngineInputType.HatButton b2 := by
      intro b2
      exact notifiesFor_congr s sM id EngineInputType.HatButton b2 hMcb
    refine ⟨s2, notifiesFor s id EngineInputType.HatButton p.1 ++ evs2, ?_, h2cfg, hcbs, ?_, ?_, ?_, ?_, ?_, ?_⟩
    · simp only [resetHatsInner]
      rw [hset]
      show resetHatsInner id t sM (evs ++ notifiesFor s id EngineInputType.HatButton p.1) =
        some (s2, evs ++ (notifiesFor s id EngineInputType.HatButton p.1 ++ evs2))
      rw [hrun, List.append_assoc]
    · intro b hb
      simp only [List.map_cons, List.mem_cons] at hb
      by_cases hbt : b ∈ t.map Prod.fst
      · exact h2self b hbt
      · have hbp : b = p.1 := by
          rcases hb with h | h
          · exact h
          · exact absurd h hbt
        rw [h2btn id b (Or.inr hbt), hbp]
        exact hMself
    · intro i b hi
      rcases hi with hi | hi
      · rw [h2btn i b (Or.inl hi), hMbtn i b (Or.inl hi)]
      · simp only [List.map_cons, List.mem_cons, not_or] at hi
        rw [h2btn i b (Or.inr hi.2), hMbtn i b (Or.inr hi.1)]
    · intro i b
      rw [h2hat i b, hMhat i b]
    · intro i a
      rw [h2ax i a, hMax i a]
    · intro i
      rw [h2pres i, hMpres i]
    · intro b hb e he
      simp only [List.map_cons, List.mem_cons] at hb
      by_cases hbt : b ∈ t.map Prod.fst
      · have he2 : e ∈ notifiesFor sM id EngineInputType.HatButton b := by
          rw [hnfM b]
          exact he
        exact List.mem_append.mpr (Or.inr (h2ev b hbt e he2))
      · have hbp : b = p.1 := by
          rcases hb with h | h
          · exact h
          · exact absurd h hbt
        rw [hbp] at he
        exact List.mem_append.mpr (Or.inl he)

lemma resetAxesInner_spec (id : PadIdentifier) (bl : List (Int × Rat)) :
    ∀ s evs, s.configuring = false →
    (lookupKey id s.controller_list).isSome = true →
    ∃ s2 evs2, resetAxesInner id bl s evs = some (s2, evs ++ evs2) ∧
      s2.configuring = false ∧
      s2.callback_list = s.callback_list ∧
      (∀ b, b ∈ bl.map Prod.fst → storedAxis s2 id b = some 0) ∧
      (∀ i a, i ≠ id ∨ a ∉ bl.map Prod.fst → storedAxis s2 i a = storedAxis s i a) ∧
      (∀ i, (lookupKey i s2.controller_list).isSome = (lookupKey i s.controller_list).isSome) ∧
      (∀ b, b ∈ bl.map Prod.fst → ∀ e ∈ notifiesFor s id EngineInputType.Analog b, e ∈ evs2) := by
  induction bl with
  | nil =>
    intro s evs hcfg hpres
    refine ⟨s, [], ?_, hcfg, rfl, ?_, ?_, ?_, ?_⟩
    · show some (s, evs) = some (s, evs ++ [])
      rw [List.append_nil]
    · intro b hb
      simp at hb
    · intro i a _
      rfl
    · intro i
      rfl
    · intro b hb
      simp at hb
  | cons p t ih =>
    intro s evs hcfg hpres
    obtain ⟨cd, hc⟩ : ∃ cd, lookupKey id s.controller_list = some cd := by
      cases hx : lookupKey id s.controller_list with
      | none =>
        rw [hx] at hpres
        exact absurd hpres (by simp)
      | some cd => exact ⟨cd, rfl⟩
    rcases setAxis_normal_spec s id p.1 0 cd hcfg hc with
      ⟨sM, hset, hMcfg, hMcb, hMself, hMaxne, hMpres⟩
    have hpres2 : (lookupKey id sM.controller_list).isSome = true := by
      rw [hMpres id]
      exact hpres
    rcases ih sM (evs ++ notifiesFor s id EngineInputType.Analog p.1) hMcfg hpres2 with
      ⟨s2, evs2, hrun, h2cfg, h2cb, h2self, h2axne, h2pres, h2ev⟩
    have hcbs : s2.callback_list = s.callback_list := by
      rw [h2cb, hMcb]
    have hnfM : ∀ b2, notifiesFor sM id EngineInputType.Analog b2 =
        notifiesFor s id EngineInputType.Analog b2 := by
      intro b2
      exact notifiesFor_congr s sM id EngineInputType.Analog b2 hMcb
    refine ⟨s2, notifiesFor s id EngineInputType.Analog p.1 ++ evs2, ?_, h2cfg, hcbs, ?_, ?_, ?_, ?_⟩
    · simp only [resetAxesInner]
      rw [hset]
      show resetAxesInner id t sM (evs ++ notifiesFor s id EngineInputType.Analog p.1) =
        some (s2, evs ++ (notifiesFor s id EngineInputType.Analog p.1 ++ evs2))
      rw [hrun, List.append_assoc]
    · intro b hb
      simp only [List.map_cons, List.mem_cons] at hb
      by_cases hbt : b ∈ t.map Prod.fst
      · exact h2self b hbt
      · have hbp : b = p.1 := by
          rcases hb with h | h
          · exact h
          · exact absurd h hbt
        rw [h2axne id b (Or.inr hbt), hbp]
        exact hMself
    · intro i a2 hi
      rcases hi with hi | hi
      · rw [h2axne i a2 (Or.inl hi), hMaxne i a2 (Or.inl hi)]
      · simp only [List.map_cons, List.mem_cons, not_or] at hi
        rw [h2axne i a2 (Or.inr hi.2), hMaxne i a2 (Or.inr hi.1)]
    · intro i
      rw [h2pres i, hMpres i]
    · intro b hb e he
      simp only [List.map_cons, List.mem_cons] at hb
      by_cases hbt : b ∈ t.map Prod.fst
      · have he2 : e ∈ notifiesFor sM id EngineInputType.Analog b := by
          rw [hnfM b]
          exact he
        exact List.mem_append.mpr (Or.inr (h2ev b hbt e he2))
      · have hbp : b = p.1 := by
          rcases hb with h | h
          · exact h
          · exact absurd h hbt
        rw [hbp] at he
        exact List.mem_append.mpr (Or.inl he)

lemma resetButtonStateAux_spec (cl : List (PadIdentifier × ControllerData)) :
    ∀ s evs, s.configuring = false →
    (cl.map Prod.fst).Nodup →
    (∀ p, p ∈ cl → (lookupKey p.1 s.controller_list).isSome = true) →
    ∃ s2 evs2, resetButtonStateAux cl s evs = some (s2, evs ++ evs2) ∧
      s2.callback_list = s.callback_list ∧
      (∀ p, p ∈ cl → ∀ b, b ∈ p.2.buttons.map Prod.fst →
        storedButton s2 p.1 b = some false) ∧
      (∀ p, p ∈ cl → ∀ hb2, hb2 ∈ p.2.hat_buttons.map Prod.fst →
        storedHatButton s2 p.1 hb2 = some 0) ∧
      (∀ i, i ∉ cl.map Prod.fst → ∀ b, storedButton s2 i b = storedButton s i b) ∧
      (∀ i, i ∉ cl.map Prod.fst → ∀ b, storedHatButton s2 i b = storedHatButton s i b) ∧
      (∀ i, (lookupKey i s2.controller_list).isSome = (lookupKey i s.controller_list).isSome) ∧
      (∀ p, p ∈ cl → ∀ b, b ∈ p.2.buttons.map Prod.fst →
        ∀ e ∈ notifiesFor s p.1 EngineInputType.Button b, e ∈ evs2) ∧
      (∀ p, p ∈ cl → ∀ hb2, hb2 ∈ p.2.hat_buttons.map Prod.fst →
        ∀ e ∈ notifiesFor s p.1 EngineInputType.HatButton hb2, e ∈ evs2) := by
  induction cl with
  | nil =>
    intro s evs hcfg hnd hpresAll
    refine ⟨s, [], ?_, rfl, ?_, ?_, ?_, ?_, ?_, ?_, ?_⟩
    · show some (s, evs) = some (s, evs ++ [])
      rw [List.append_nil]
    · intro p hp
      simp at hp
    · intro p hp
      simp at hp
    · intro i _ b
      rfl
    · intro i _ b
      rfl
    · intro i
      rfl
    · intro p hp
      simp at hp
    · intro p hp
      simp at hp
  | cons c t ih =>
    intro s evs hcfg hnd hpresAll
    simp only [List.map_cons, List.nodup_cons] at hnd
    have hpc := hpresAll c (List.mem_cons_self c t)
    rcases resetButtonsInner_spec c.1 c.2.buttons s evs hcfg hpc with
      ⟨sB, evB, hrunB, hBcfg, hBcb, hBself, hBbtn, hBhat, hBax, hBpres, hBev⟩
    have hpcB : (lookupKey c.1 sB.controller_list).isSome = true := by
      rw [hBpres]
      exact hpc
    rcases resetHatsInner_spec c.1 c.2.hat_buttons sB (evs ++ evB) hBcfg hpcB with
      ⟨sH, evH, hrunH, hHcfg, hHcb, hHself, hHhatne, hHbtn, hHax, hHpres, hHev⟩
    have hpresT : ∀ p, p ∈ t → (lookupKey p.1 sH.controller_list).isSome = true := by
      intro p hp
      rw [hHpres, hBpres]
      exact hpresAll p (List.mem_cons_of_mem c hp)
    rcases ih sH (evs ++ evB ++ evH) hHcfg hnd.2 hpresT with
      ⟨s2, evT, hrunT, hTcb, hTselfB, hTselfH, hTbtn, hThat, hTpres, hTevB, hTevH⟩
    have hcbBs : sB.callback_list = s.callback_list := hBcb
    have hcbHs : sH.callback_list = s.callback_list := by
      rw [hHcb, hBcb]
    have hcb2s : s2.callback_list = s.callback_list := by
      rw [hTcb, hHcb, hBcb]
    have hnfB : ∀ i2 t2 b2, notifiesFor sB i2 t2 b2 = notifiesFor s i2 t2 b2 :=
      fun i2 t2 b2 => notifiesFor_congr s sB i2 t2 b2 hcbBs
    have hnfH : ∀ i2 t2 b2, notifiesFor sH i2 t2 b2 = notifiesFor s i2 t2 b2 :=
      fun i2 t2 b2 => notifiesFor_congr s sH i2 t2 b2 hcbHs
    refine ⟨s2, evB ++ evH ++ evT, ?_, hcb2s, ?_, ?_, ?_, ?_, ?_, ?_, ?_⟩
    · simp only [resetButtonStateAux]
      rw [hrunB]
      show (match resetHatsInner c.1 c.2.hat_buttons sB (evs ++ evB) with
        | none => none
        | some r2 => resetButtonStateAux t r2.1 r2.2) =
        some (s2, evs ++ (evB ++ evH ++ evT))
      rw [hrunH]
      show resetButtonStateAux t sH (evs ++ evB ++ evH) = some (s2, evs ++ (evB ++ evH ++ evT))
      rw [hrunT]
      rw [List.append_assoc, List.append_assoc, List.append_assoc]
    · intro p hp b hbmem
      rcases List.mem_cons.mp hp with rfl | hp2
      · rw [hTbtn p.1 hnd.1 b, hHbtn p.1 b]
        exact hBself b hbmem
      · exact hTselfB p hp2 b hbmem
    · intro p hp hb2 hbmem
      rcases List.mem_cons.mp hp with rfl | hp2
      · rw [hThat p.1 hnd.1 hb2]
        exact hHself hb2 hbmem
      · exact hTselfH p hp2 hb2 hbmem
    · intro i hi b
      simp only [List.map_cons, List.mem_cons, not_or] at hi
      rw [hTbtn i hi.2 b, hHbtn i b, hBbtn i b (Or.inl hi.1)]
    · intro i hi b
      simp only [List.map_cons, List.mem_cons, not_or] at hi
      rw [hThat i hi.2 b, hHhatne i b (Or.inl hi.1), hBhat i b]
    · intro i
      rw [hTpres i, hHpres i, hBpres i]
    · intro p hp b hbmem e he
      rcases List.mem_cons.mp hp with rfl | hp2
      · exact List.mem_append.mpr (Or.inl (List.mem_append.mpr (Or.inl (hBev b hbmem e he))))
      · have he2 : e ∈ notifiesFor sH p.1 EngineInputType.Button b := by
          rw [hnfH]
          exact he
        exact List.mem_append.mpr (Or.inr (hTevB p hp2 b hbmem e he2))
    · intro p hp hb2 hbmem e he
      rcases List.mem_cons.mp hp with rfl | hp2
      · have he2 : e ∈ notifiesFor sB p.1 EngineInputType.HatButton hb2 := by
          rw [hnfB]
          exact he
        exact List.mem_append.mpr (Or.inl (List.mem_append.mpr (Or.inr (hHev hb2 hbmem e he2))))
      · have he2 : e ∈ notifiesFor sH p.1 EngineInputType.HatButton hb2 := by
          rw [hnfH]
          exact he
        exact List.mem_append.mpr (Or.inr (hTevH p hp2 hb2 hbmem e he2))

lemma resetAnalogStateAux_spec (cl : List (PadIdentifier × ControllerData)) :
    ∀ s evs, s.configuring = false →
    (cl.map Prod.fst).Nodup →
    (∀ p, p ∈ cl → (lookupKey p.1 s.controller_list).isSome = true) →
    ∃ s2 evs2, resetAnalogStateAux cl s evs = some (s2, evs ++ evs2) ∧
      s2.callback_list = s.callback_list ∧
      (∀ p, p ∈ cl → ∀ a, a ∈ p.2.axes.map Prod.fst →
        storedAxis s2 p.1 a = some 0) ∧
      (∀ i, i ∉ cl.map Prod.fst → ∀ a, storedAxis s2 i a = storedAxis s i a) ∧
      (∀ i, (lookupKey i s2.controller_list).isSome = (lookupKey i s.controller_list).isSome) ∧
      (∀ p, p ∈ cl → ∀ a, a ∈ p.2.axes.map Prod.fst →
        ∀ e ∈ notifiesFor s p.1 EngineInputType.Analog a, e ∈ evs2) := by
  induction cl with
  | nil =>
    intro s evs hcfg hnd hpresAll
    refine ⟨s, [], ?_, rfl, ?_, ?_, ?_, ?_⟩
    · show some (s, evs) = some (s, evs ++ [])
      rw [List.append_nil]
    · intro p hp
      simp at hp
    · intro i _ a
      rfl
    · intro i
      rfl
    · intro p hp
      simp at hp
  | cons c t ih =>
    intro s evs hcfg hnd hpresAll
    simp only [List.map_cons, List.nodup_cons] at hnd
    have hpc := hpresAll c (List.mem_cons_self c t)
    rcases resetAxesInner_spec c.1 c.2.axes s evs hcfg hpc with
      ⟨sA, evA, hrunA, hAcfg, hAcb, hAself, hAaxne, hApres, hAev⟩
    have hpresT : ∀ p, p ∈ t → (lookupKey p.1 sA.controller_list).isSome = true := by
      intro p hp
      rw [hApres]
      exact hpresAll p (List.mem_cons_of_mem c hp)
    rcases ih sA (evs ++ evA) hAcfg hnd.2 hpresT with
      ⟨s2, evT, hrunT, hTcb, hTself, hTaxne, hTpres, hTev⟩
    have hcbAs : sA.callback_list = s.callback_list := hAcb
    have hnfA : ∀ i2 t2 b2, notifiesFor sA i2 t2 b2 = notifiesFor s i2 t2 b2 :=
      fun i2 t2 b2 => notifiesFor_congr s sA i2 t2 b2 hcbAs
    refine ⟨s2, evA ++ evT, ?_, by rw [hTcb, hAcb], ?_, ?_, ?_, ?_⟩
    · simp only [resetAnalogStateAux]
      rw [hrunA]
      show resetAnalogStateAux t sA (evs ++ evA) = some (s2, evs ++ (evA ++ evT))
      rw [hrunT, List.append_assoc]
    · intro p hp a hamem
      rcases List.mem_cons.mp hp with rfl | hp2
      · rw [hTaxne p.1 hnd.1 a]
        exact hAself a hamem
      · exact hTself p hp2 a hamem
    · intro i hi a
      simp only [List.map_cons, List.mem_cons, not_or] at hi
      rw [hTaxne i hi.2 a, hAaxne i a (Or.inl hi.1)]
    · intro i
      rw [hTpres i, hApres i]
    · intro p hp a hamem e he
      rcases List.mem_cons.mp hp with rfl | hp2
      · exact List.mem_append.mpr (Or.inl (hAev a hamem e he))
      · have he2 : e ∈ notifiesFor sA p.1 EngineInputType.Analog a := by
          rw [hnfA]
          exact he
        exact List.mem_append.mpr (Or.inr (hTev p hp2 a hamem e he2))

/-- C9: `ResetButtonState` routes through `SetButton`/`SetHatButton` and
`ResetAnalogState` through `SetAxis` for every known device and index: in
normal mode every known button ends stored `false`, every hat mask `0` and
every axis `0`, every listener subscription with a notifier matching one of
those (device, kind, index) events is notified in the emitted trace, and in
configuring mode a reset can emit mapping-detection events (witnessed by a
concrete configuring engine whose reset emits one). -/
theorem c9_reset_through_mutators (s : InputEngineState)
    (hnd : (s.controller_list.map Prod.fst).Nodup)
    (hcfg : s.configuring = false) :
    (∃ r : InputEngineState × List EngineEvent, resetButtonState s = some r ∧
      (∀ p, p ∈ s.controller_list → ∀ b, b ∈ p.2.buttons.map Prod.fst →
        storedButton r.1 p.1 b = some false ∧
        (∀ k ii, (k, ii) ∈ s.callback_list → ii.has_on_change = true →
          isInputIdentifierEqual ii p.1 EngineInputType.Button b = true →
          EngineEvent.notify k ∈ r.2)) ∧
      (∀ p, p ∈ s.controller_list → ∀ hb, hb ∈ p.2.hat_buttons.map Prod.fst →
        storedHatButton r.1 p.1 hb = some 0 ∧
        (∀ k ii, (k, ii) ∈ s.callback_list → ii.has_on_change = true →
          isInputIdentifierEqual ii p.1 EngineInputType.HatButton hb = true →
          EngineEvent.notify k ∈ r.2))) ∧
    (∃ r : InputEngineState × List EngineEvent, resetAnalogState s = some r ∧
      (∀ p, p ∈ s.controller_list → ∀ a, a ∈ p.2.axes.map Prod.fst →
        storedAxis r.1 p.1 a = some 0 ∧
        (∀ k ii, (k, ii) ∈ s.callback_list → ii.has_on_change = true →
          isInputIdentifierEqual ii p.1 EngineInputType.Analog a = true →
          EngineEvent.notify k ∈ r.2))) ∧
    (∃ r : InputEngineState × List EngineEvent,
      resetButtonState egC9Cfg = some r ∧ mappingEvents r.2 ≠ []) := by
  have hpres : ∀ p, p ∈ s.controller_list →
      (lookupKey p.1 s.controller_list).isSome = true := by
    intro p hp
    exact lookupKey_isSome_of_mem p.1 p.2 s.controller_list hp
  rcases resetButtonStateAux_spec s.controller_list s [] hcfg hnd hpres with
    ⟨s2, evs2, hrun, hcb, hselfB, hselfH, hpB, hpH, hpr, hevB, hevH⟩
  rcases resetAnalogStateAux_spec s.controller_list s [] hcfg hnd hpres with
    ⟨s3, evs3, hrun3, hcb3, hselfA, hpA, hpr3, hevA⟩
  refine ⟨⟨(s2, evs2), ?_, ?_, ?_⟩, ⟨(s3, evs3), ?_, ?_⟩, ?_⟩
  · unfold resetButtonState
    rw [hrun, List.nil_append]
  · intro p hp b hb
    refine ⟨hselfB p hp b hb, ?_⟩
    intro k ii hmem hon hmatch
    exact hevB p hp b hb _
      (notify_mem_notifiesFor_intro s p.1 EngineInputType.Button b k ii hmem hon hmatch)
  · intro p hp hb hbm
    refine ⟨hselfH p hp hb hbm, ?_⟩
    intro k ii hmem hon hmatch
    exact hevH p hp hb hbm _
      (notify_mem_notifiesFor_intro s p.1 EngineInputType.HatButton hb k ii hmem hon hmatch)
  · unfold resetAnalogState
    rw [hrun3, List.nil_append]
  · intro p hp a ha
    refine ⟨hselfA p hp a ha, ?_⟩
    intro k ii hmem hon hmatch
    exact hevA p hp a ha _
      (notify_mem_notifiesFor_intro s p.1 EngineInputType.Analog a k ii hmem hon hmatch)
  · refine ⟨(egC9Cfg, [EngineEvent.mapping { engine := "t", pad := pid0, type := EngineInputType.HatButton, index := 0, hat_name := 1 }]), ?_, ?_⟩
    · decide
    · decide

theorem c9_reset_through_mutators_witness :
    (∃ r : InputEngineState × List EngineEvent, resetButtonState egListen = some r ∧
      (∀ p, p ∈ egListen.controller_list → ∀ b, b ∈ p.2.buttons.map Prod.fst →
        storedButton r.1 p.1 b = some false ∧
        (∀ k ii, (k, ii) ∈ egListen.callback_list → ii.has_on_change = true →
          isInputIdentifierEqual ii p.1 EngineInputType.Button b = true →
          EngineEvent.notify k ∈ r.2)) ∧
      (∀ p, p ∈ egListen.controller_list → ∀ hb, hb ∈ p.2.hat_buttons.map Prod.fst →
        storedHatButton r.1 p.1 hb = some 0 ∧
        (∀ k ii, (k, ii) ∈ egListen.callback_list → ii.has_on_change = true →
          isInputIdentifierEqual ii p.1 EngineInputType.HatButton hb = true →
          EngineEvent.notify k ∈ r.2))) ∧
    (∃ r : InputEngineState × List EngineEvent, resetAnalogState egListen = some r ∧
      (∀ p, p ∈ egListen.controller_list → ∀ a, a ∈ p.2.axes.map Prod.fst →
        storedAxis r.1 p.1 a = some 0 ∧
        (∀ k ii, (k, ii) ∈ egListen.callback_list → ii.has_on_change = true →
          isInputIdentifierEqual ii p.1 EngineInputType.Analog a = true →
          EngineEvent.notify k ∈ r.2))) ∧
    (∃ r : InputEngineState × List EngineEvent,
      resetButtonState egC9Cfg = some r ∧ mappingEvents r.2 ≠ []) :=
  c9_reset_through_mutators egListen (by decide) rfl
